import Mathlib

/-!
Capture coordination (`Utilities::RenderDocManager`)

A shallow embedding of `src/Utilities/RenderDocManager.{hpp,cpp}` and of the
provider function table of `src/Utilities/RenderDocAPI.hpp`.

The coordinator holds a nullable pointer to the provider's function table and
the last outcome string.  Everything outside the object is kept in a `World`:
the provider's own state, the trace of table primitives invoked so far, the
trace of module names looked up, and the lines written to the console.  A C++
member function becomes a function that takes the object and the world and
returns its result together with the new object and the new world.
-/

namespace Utilities

/-- Value carried by a `uint32_t` result. -/
def uint32_t (n : Nat) : Nat := n % 4294967296

/-- Value carried by an `int` result (32 bits, two's complement). -/
def int (z : Int) : Int := (z + 2147483648) % 4294967296 - 2147483648

/-- `eRENDERDOC_API_Version_1_1_2` of `RenderDocAPI.hpp`. -/
def eRENDERDOC_API_Version_1_1_2 : Int := 10102

/-- The five entries of the provider's function table. -/
inductive Primitive where
  | GetAPIVersion
  | StartFrameCapture
  | EndFrameCapture
  | IsFrameCapturing
  | TriggerCapture
  deriving DecidableEq, Repr

/-- `RENDERDOC_API_1_1_2`: the provider's function table, over a provider state
`σ`.  The two queries (`GetAPIVersion`, `IsFrameCapturing`) read the provider
state; the three commands change it.  `GetAPIVersion` receives the current
contents of the three locations it is given and returns its `int` result with
their new contents.  The two device/window arguments are always `nullptr` in
this program and are left out. -/
structure RENDERDOC_API_1_1_2 (σ : Type) where
  GetAPIVersion : σ → Int × Int × Int → Int × (Int × Int × Int)
  StartFrameCapture : σ → σ
  EndFrameCapture : σ → Nat × σ
  IsFrameCapturing : σ → Nat
  TriggerCapture : σ → σ

/-- `pRENDERDOC_GetAPI`: the provider's entry point.  It receives the requested
version and the current content of the location `outAPIPointers` points to,
and returns its `int` result with the new content of that location. -/
abbrev pRENDERDOC_GetAPI (σ : Type) : Type :=
  Int → Option (RENDERDOC_API_1_1_2 σ) → Int × Option (RENDERDOC_API_1_1_2 σ)

/-- Severities used with `Console::Write`. -/
inductive Severity where
  | Info
  | Warning
  | Error
  deriving DecidableEq, Repr

/-- Everything outside the coordinator object. -/
structure World (σ : Type) where
  /-- State of the diagnostics provider. -/
  provider : σ
  /-- Table primitives invoked so far, oldest first. -/
  calls : List Primitive
  /-- Module names passed to the residency lookup so far, oldest first. -/
  lookups : List String
  /-- Lines written to the console so far, oldest first. -/
  console : List (Severity × String)

/-- Record the invocation of a table primitive. -/
def World.call {σ : Type} (w : World σ) (p : Primitive) : World σ :=
  { w with calls := w.calls ++ [p] }

/-- Modelled from the spec: `Console::Write` of `Console.hpp`, which is not part
of the sources at hand; a failure path "degrades to a logged outcome", so a
call appends the lines its callback prints, tagged with the severity. -/
def Console.Write {σ : Type} (severity : Severity) (lines : List String) (w : World σ) :
    World σ :=
  { w with console := w.console ++ lines.map (fun l => (severity, l)) }

/-- The host process as seen by `Initialize`: the platform family, the lookup
of an already resident module by name (`GetModuleHandleA`, or `dlopen` with
`RTLD_NOW | RTLD_NOLOAD`; `none` is the null handle), and symbol resolution in
a module (`GetProcAddress` / `dlsym`; `none` is the null pointer). -/
structure Process (σ : Type) where
  WIN32 : Bool
  resident : String → Option Nat
  symbol : Nat → String → Option (pRENDERDOC_GetAPI σ)

/-- `class RenderDocManager`: its two data members. -/
structure RenderDocManager (σ : Type) where
  renderDocAPI_ : Option (RENDERDOC_API_1_1_2 σ)
  lastCaptureInfo_ : String

namespace RenderDocManager

variable {σ : Type}

/-- `RenderDocManager::RenderDocManager()`. -/
def new : RenderDocManager σ :=
  { renderDocAPI_ := none, lastCaptureInfo_ := "" }

/-- `IsAvailable() const`. -/
def IsAvailable (m : RenderDocManager σ) : Bool :=
  m.renderDocAPI_.isSome

/-- `GetLastCaptureInfo() const`. -/
def GetLastCaptureInfo (m : RenderDocManager σ) : String :=
  m.lastCaptureInfo_

/-- `IsCapturing() const`. -/
def IsCapturing (m : RenderDocManager σ) (w : World σ) : Bool × World σ :=
  match m.renderDocAPI_ with
  | none => (false, w)
  | some api => (uint32_t (api.IsFrameCapturing w.provider) == 1, w.call .IsFrameCapturing)

/-- `StartCapture()`. -/
def StartCapture (m : RenderDocManager σ) (w : World σ) : RenderDocManager σ × World σ :=
  match m.renderDocAPI_ with
  | none => (m, w)
  | some api =>
    let (capturing, w) := m.IsCapturing w
    if capturing then
      (m, Console.Write .Warning ["[RenderDoc] Capture already in progress"] w)
    else
      let w := Console.Write .Info ["[RenderDoc] Starting frame capture..."] w
      let w := { w.call .StartFrameCapture with provider := api.StartFrameCapture w.provider }
      ({ m with lastCaptureInfo_ := "Manual capture started" }, w)

/-- `EndCapture()`. -/
def EndCapture (m : RenderDocManager σ) (w : World σ) : RenderDocManager σ × World σ :=
  match m.renderDocAPI_ with
  | none => (m, w)
  | some api =>
    let (capturing, w) := m.IsCapturing w
    if !capturing then
      (m, Console.Write .Warning ["[RenderDoc] No active capture to end"] w)
    else
      let w := Console.Write .Info ["[RenderDoc] Ending frame capture"] w
      let (result, provider) := api.EndFrameCapture w.provider
      let w := { w.call .EndFrameCapture with provider := provider }
      if uint32_t result == 1 then
        ({ m with lastCaptureInfo_ := "Manual capture completed successfully" },
          Console.Write .Info ["[RenderDoc] Frame captured successfully!"] w)
      else
        ({ m with lastCaptureInfo_ := "Manual capture failed" },
          Console.Write .Error ["[RenderDoc] Frame capture failed"] w)

/-- `TriggerCapture()`. -/
def TriggerCapture (m : RenderDocManager σ) (w : World σ) : RenderDocManager σ × World σ :=
  match m.renderDocAPI_ with
  | none => (m, w)
  | some api =>
    let w := Console.Write .Info ["[RenderDoc] Triggering single frame capture..."] w
    let w := { w.call .TriggerCapture with provider := api.TriggerCapture w.provider }
    ({ m with lastCaptureInfo_ := "Single frame capture triggered" },
      Console.Write .Info ["[RenderDoc] Single frame captured!"] w)

/-- `GetVersion(int& major, int& minor, int& patch) const`: `v` is the content
of the three referenced variables at the call, the result their content at
return. -/
def GetVersion (m : RenderDocManager σ) (v : Int × Int × Int) (w : World σ) :
    (Int × Int × Int) × World σ :=
  match m.renderDocAPI_ with
  | some api =>
    let (_, major, minor, patch) := api.GetAPIVersion w.provider v
    ((int major, int minor, int patch), w.call .GetAPIVersion)
  | none => ((0, 0, 0), w)

/-- `LoadRenderDocModule()`: look up the platform's module names among the
modules already resident in the process. -/
def LoadRenderDocModule (P : Process σ) (w : World σ) : Option Nat × World σ :=
  if P.WIN32 then
    let w := { w with lookups := w.lookups ++ ["renderdoc.dll"] }
    match P.resident "renderdoc.dll" with
    | some module => (some module, w)
    | none =>
      ( P.resident "renderdoc_app.dll",
        { w with lookups := w.lookups ++ ["renderdoc_app.dll"] })
  else
    let w := { w with lookups := w.lookups ++ ["librenderdoc.so"] }
    match P.resident "librenderdoc.so" with
    | some module => (some module, w)
    | none =>
      ( P.resident "librenderdoc.so.1",
        { w with lookups := w.lookups ++ ["librenderdoc.so.1"] })

/-- `Initialize()`.  `uninit` is the indeterminate content of the three local
variables `major, minor, patch` before `GetVersion` fills them. -/
def Initialize (P : Process σ) (uninit : Int × Int × Int) (m : RenderDocManager σ)
    (w : World σ) : Bool × RenderDocManager σ × World σ :=
  let w := Console.Write .Info ["[RenderDoc] Initializing integration..."] w
  let (module, w) := LoadRenderDocModule P w
  match module with
  | none =>
    (false, m, Console.Write .Warning
      ["[RenderDoc] Module not found - RenderDoc integration disabled",
       "[RenderDoc] To use: Launch your app through RenderDoc or inject the DLL"] w)
  | some module =>
    match P.symbol module "RENDERDOC_GetAPI" with
    | none => (false, m, Console.Write .Error ["[RenderDoc] Failed to get API function"] w)
    | some RENDERDOC_GetAPI =>
      let (result, api) := RENDERDOC_GetAPI eRENDERDOC_API_Version_1_1_2 m.renderDocAPI_
      let m := { m with renderDocAPI_ := api }
      if int result != 1 || !m.renderDocAPI_.isSome then
        (false, m, Console.Write .Error ["[RenderDoc] Failed to initialize API"] w)
      else
        let ((major, minor, patch), w) := m.GetVersion uninit w
        (true, m, Console.Write .Info
          ["[RenderDoc] Successfully initialized!",
           "[RenderDoc] Version: " ++ toString major ++ "." ++ toString minor ++ "."
             ++ toString patch,
           "[RenderDoc] Press F12 to capture current frame",
           "[RenderDoc] Press Ctrl+F12 to start/stop manual capture"] w)

end RenderDocManager

/-! ## Vocabulary of the specification -/

/-- The three states of a capture session. -/
inductive CaptureState where
  | Unbound
  | Idle
  | Recording
  deriving DecidableEq, Repr

/-- The state of the capture session as the coordinator observes it: `Unbound`
when no table is bound, else `Recording` or `Idle` as `IsCapturing()` answers. -/
def captureState {σ : Type} (m : RenderDocManager σ) (w : World σ) : CaptureState :=
  if !m.IsAvailable then .Unbound
  else if (m.IsCapturing w).1 then .Recording
  else .Idle

/-- Spec-side reading of "the outcome indicates that a capture was already in
progress": the text says "already in progress", as the console warning of
`StartCapture()` does. -/
def indicatesAlreadyInProgress (outcome : String) : Bool :=
  decide ("already in progress".toList <:+: outcome.toList)

/-- The operations of the coordinator, with the arguments a call needs. -/
inductive Op where
  | Initialize (uninit : Int × Int × Int)
  | StartCapture
  | EndCapture
  | IsCapturing
  | TriggerCapture
  | GetVersion (v : Int × Int × Int)

/-- One call on the coordinator in the process `P`; results are dropped. -/
def step {σ : Type} (P : Process σ) (op : Op) (c : RenderDocManager σ × World σ) :
    RenderDocManager σ × World σ :=
  match op with
  | .Initialize uninit => (c.1.Initialize P uninit c.2).2
  | .StartCapture => c.1.StartCapture c.2
  | .EndCapture => c.1.EndCapture c.2
  | .IsCapturing => (c.1, (c.1.IsCapturing c.2).2)
  | .TriggerCapture => c.1.TriggerCapture c.2
  | .GetVersion v => (c.1, (c.1.GetVersion v c.2).2)

/-- A finite sequence of calls, first call first. -/
def run {σ : Type} (P : Process σ) (ops : List Op) (c : RenderDocManager σ × World σ) :
    RenderDocManager σ × World σ :=
  ops.foldl (fun c op => step P op c) c

/-- Spec-side: the manual `Recording` flag, "a manual StartCapture() succeeded
and has not been ended by EndCapture()".  A `StartCapture()` that takes its
success path (bound, no capture reported, so the start primitive is invoked)
sets it; an `EndCapture()` that invokes the end primitive clears it.  The code
keeps no such flag. -/
def manualStep {σ : Type} (op : Op) (c : RenderDocManager σ × World σ) (manual : Bool) : Bool :=
  match op with
  | .StartCapture => if c.1.IsAvailable && !(c.1.IsCapturing c.2).1 then true else manual
  | .EndCapture => if c.1.IsAvailable && (c.1.IsCapturing c.2).1 then false else manual
  | _ => manual

/-- Spec-side: the manual `Recording` flag after a sequence of calls. -/
def manualRecording {σ : Type} (P : Process σ) :
    List Op → RenderDocManager σ × World σ → Bool → Bool
  | [], _, manual => manual
  | op :: ops, c, manual => manualRecording P ops (step P op c) (manualStep op c manual)

/-! ## Stub providers and processes -/

/-- A world in which nothing has happened yet. -/
def World.init {σ : Type} (s : σ) : World σ :=
  { provider := s, calls := [], lookups := [], console := [] }

/-- A stub provider whose state is its capturing flag: the start primitive
sets it, the end primitive clears it and answers `endResult`, the trigger
primitive leaves it, and the version is 1.1.2. -/
def stubProvider (endResult : Nat) : RENDERDOC_API_1_1_2 Bool where
  GetAPIVersion := fun _ _ => (1, (1, 1, 2))
  StartFrameCapture := fun _ => true
  EndFrameCapture := fun _ => (endResult, false)
  IsFrameCapturing := fun capturing => if capturing then 1 else 0
  TriggerCapture := fun capturing => capturing

/-- A stub provider without state whose capturing query always answers
`report`. -/
def constProvider (report : Nat) : RENDERDOC_API_1_1_2 Unit where
  GetAPIVersion := fun _ _ => (1, (1, 1, 2))
  StartFrameCapture := fun _ => ()
  EndFrameCapture := fun _ => (1, ())
  IsFrameCapturing := fun _ => report
  TriggerCapture := fun _ => ()

/-- A Linux process in which `librenderdoc.so` is resident and its entry
point answers `result` and stores `table`. -/
def stubProcess {σ : Type} (result : Int) (table : Option (RENDERDOC_API_1_1_2 σ)) :
    Process σ where
  WIN32 := false
  resident := fun name => if name = "librenderdoc.so" then some 1 else none
  symbol := fun _ name =>
    if name = "RENDERDOC_GetAPI" then some (fun _ _ => (result, table)) else none

/-- A stub provider whose state is the patch level it reports: the version
query answers `(1, 1, patch)`, and the start primitive raises the patch level
by one. -/
def versionedProvider : RENDERDOC_API_1_1_2 Int where
  GetAPIVersion := fun patch _ => (1, (1, 1, patch))
  StartFrameCapture := fun patch => patch + 1
  EndFrameCapture := fun patch => (1, patch)
  IsFrameCapturing := fun _ => 0
  TriggerCapture := fun patch => patch

/-- Whether a call is `Initialize()`. -/
def Op.isInitialize : Op → Bool
  | .Initialize _ => true
  | _ => false

/-- The module names `LoadRenderDocModule()` knows of, in the order of the
platform family. -/
def candidateNames (WIN32 : Bool) : List String :=
  if WIN32 then ["renderdoc.dll", "renderdoc_app.dll"]
  else ["librenderdoc.so", "librenderdoc.so.1"]

/-- A stub provider whose version query answers 0 and leaves the three
outputs as it found them; its capturing query always answers 0. -/
def silentProvider : RENDERDOC_API_1_1_2 Unit where
  GetAPIVersion := fun _ v => (0, v)
  StartFrameCapture := fun _ => ()
  EndFrameCapture := fun _ => (1, ())
  IsFrameCapturing := fun _ => 0
  TriggerCapture := fun _ => ()

/-- Whether no `Initialize()` of the sequence, run from `c`, leaves unbound a
coordinator that was bound when it was called. -/
def initializeKeepsBinding {σ : Type} (P : Process σ) :
    List Op → RenderDocManager σ × World σ → Bool
  | [], _ => true
  | op :: ops, c =>
    (!(op.isInitialize && c.1.IsAvailable) || (step P op c).1.IsAvailable)
      && initializeKeepsBinding P ops (step P op c)

/-- The strings `lastCaptureInfo_` is ever given: the empty string of the
constructor and the four outcomes assigned by `StartCapture()`, `EndCapture()`
and `TriggerCapture()`. -/
def outcomes : List String :=
  ["", "Manual capture started", "Manual capture completed successfully",
   "Manual capture failed", "Single frame capture triggered"]

/-- A Linux process in which `librenderdoc.so` is resident and its entry
point hands out the table once: called on a null table pointer it answers 1
and stores `table`; called on a pointer that already holds a table it answers
0 and stores null. -/
def handOutOnceProcess {σ : Type} (table : RENDERDOC_API_1_1_2 σ) : Process σ where
  WIN32 := false
  resident := fun name => if name = "librenderdoc.so" then some 1 else none
  symbol := fun _ name =>
    if name = "RENDERDOC_GetAPI" then
      some (fun _ current =>
        match current with
        | none => (1, some table)
        | some _ => (0, none))
    else none

end Utilities

/-!
The interaction surface (`UserInterface`)

A shallow embedding of `src/UserInterface.cpp`.  The toolkit (Dear ImGui) is
not part of the sources: what the user and the platform do in a frame is an
`ImGui.Input`, and what a frame builds is the list of `ImGui.Item`s it emits,
in order.  Calls that only set position, size, flags, style, font, spacing,
separators or columns carry no state and no content and are left out, and so
is the Vulkan render pass that draws the finished frame.
-/

/-- Modelled from the spec: `UserSettings` of `UserSettings.hpp`, which is not
among the sources: the ConfigurationStore fields of §3 under the names
`UserInterface.cpp` uses.  The `float` fields are taken over the rationals;
only their order is used. -/
structure UserSettings where
  SceneIndex : Int
  IsRayTraced : Bool
  AccumulateRays : Bool
  NumberOfSamples : Nat
  NumberOfBounces : Nat
  FieldOfView : ℚ
  Aperture : ℚ
  FocusDistance : ℚ
  ShowHeatmap : Bool
  HeatmapScale : ℚ
  ShowSettings : Bool
  ShowOverlay : Bool

/-- Modelled from the spec: `Statistics` of `UserInterface.hpp`, which is not
among the sources: the FrameStatisticsSnapshot of §3 under the names
`UserInterface.cpp` reads. -/
structure Statistics where
  FramebufferSize : Nat × Nat
  FrameRate : ℚ
  RayRate : ℚ
  TotalSamples : Nat
  RenderDocAvailable : Bool
  RenderDocCapturing : Bool

/-- Names of `SceneList::AllScenes` (`src/SceneList.cpp`). -/
def SceneList.AllScenes : List String := ["Interactive Gallery Scene"]

namespace ImGui

/-- An argument of a format string. -/
inductive Arg where
  | int (n : Int)
  | float (x : ℚ)
  | char (c : Char)
  | str (s : String)
  deriving DecidableEq

/-- What a frame emits: windows opened and closed, text lines with their
format arguments, controls by label, progress bars. -/
inductive Item where
  | Begin (name : String)
  | End
  | Text (fmt : String) (args : List Arg)
  | BulletText (fmt : String) (args : List Arg)
  | Control (label : String)
  | ProgressBar (fraction : ℚ)
  deriving DecidableEq

/-- What the user and the platform do in one frame: per window title whether
`Begin` answers true and whether its close button was pressed; per control
label the selection, click or value offered, if any; the clock; the key
names of the window. -/
structure Input where
  Begin : String → Bool
  Closed : String → Bool
  Combo : String → Option Int
  Checkbox : String → Bool
  SliderScalar : String → Option Nat
  SliderFloat : String → Option ℚ
  GetTime : ℚ
  GetKeyName : Nat → String

/-- `ImClamp`. -/
def ImClamp {α : Type} [LT α] [DecidableRel (fun a b : α => a < b)] (v mn mx : α) : α :=
  if v < mn then mn else if mx < v then mx else v

/-- `ImGui::Begin(name, p_open, flags)`: answers whether the window is to be
filled, and clears `*p_open` when the close button was pressed. -/
def Begin (io : Input) (name : String) (p_open : Bool) (frame : List Item) :
    Bool × Bool × List Item :=
  (io.Begin name, if io.Closed name then false else p_open, frame ++ [.Begin name])

/-- `ImGui::End()`. -/
def End (frame : List Item) : List Item := frame ++ [.End]

/-- `ImGui::Text` and `ImGui::TextColored` (the colour is left out). -/
def Text (fmt : String) (args : List Arg) (frame : List Item) : List Item :=
  frame ++ [.Text fmt args]

/-- `ImGui::BulletText`. -/
def BulletText (fmt : String) (args : List Arg) (frame : List Item) : List Item :=
  frame ++ [.BulletText fmt args]

/-- `ImGui::ProgressBar`. -/
def ProgressBar (fraction : ℚ) (frame : List Item) : List Item :=
  frame ++ [.ProgressBar fraction]

/-- `ImGui::Combo(label, current_item, items, items_count)`: a selection among
the items replaces the current item. -/
def Combo (io : Input) (label : String) (current_item : Int) (items : List String)
    (frame : List Item) : Int × List Item :=
  ( match io.Combo label with
    | some i => if 0 ≤ i ∧ i < items.length then i else current_item
    | none => current_item,
    frame ++ [.Control label] )

/-- `ImGui::Checkbox(label, v)`: a click flips the value. -/
def Checkbox (io : Input) (label : String) (v : Bool) (frame : List Item) : Bool × List Item :=
  (if io.Checkbox label then !v else v, frame ++ [.Control label])

/-- Modelled from the spec: the write path of `ImGui::SliderScalar` with
`ImGuiDataType_U32`.  The toolkit is not among the sources; by §4.3 a control
writes through the store's clamped setter, and by §4.1 that setter clamps its
argument to the declared range, here the range `[p_min, p_max]` the slider is
created with.  Without an offered value the field is left as it is. -/
def SliderScalar (io : Input) (label : String) (v p_min p_max : Nat) (frame : List Item) :
    Nat × List Item :=
  ( match io.SliderScalar label with
    | some offered => ImClamp offered p_min p_max
    | none => v,
    frame ++ [.Control label] )

/-- Modelled from the spec: the write path of `ImGui::SliderFloat`, as for
`SliderScalar`: an offered value is clamped to `[v_min, v_max]` and stored. -/
def SliderFloat (io : Input) (label : String) (v v_min v_max : ℚ) (frame : List Item) :
    ℚ × List Item :=
  ( match io.SliderFloat label with
    | some offered => ImClamp offered v_min v_max
    | none => v,
    frame ++ [.Control label] )

end ImGui

/-- `GLFW_KEY_W`, `GLFW_KEY_A`, `GLFW_KEY_S`, `GLFW_KEY_D`. -/
def GLFW_KEY_W : Nat := 87
/-- See `GLFW_KEY_W`. -/
def GLFW_KEY_A : Nat := 65
/-- See `GLFW_KEY_W`. -/
def GLFW_KEY_S : Nat := 83
/-- See `GLFW_KEY_W`. -/
def GLFW_KEY_D : Nat := 68

/-- `VK_SUCCESS`. -/
def VK_SUCCESS : Int := 0

namespace UserInterface

/-- `CheckVulkanResultCallback(err)`; `ToString` is `Vulkan::ToString`, which
is not among the sources.  `Throw` raises the exception. -/
def CheckVulkanResultCallback (ToString : Int → String) (err : Int) : Except String Unit :=
  if err != VK_SUCCESS then
    .error ("ImGui Vulkan error (" ++ ToString err ++ ")")
  else
    .ok ()

/-- The backend hands each Vulkan result of a call to the registered
`CheckVkResultFn`, in order. -/
def reportResults (ToString : Int → String) : List Int → Except String Unit
  | [] => .ok ()
  | err :: rest =>
    match CheckVulkanResultCallback ToString err with
    | .error e => .error e
    | .ok () => reportResults ToString rest

/-- What the presentation layer answers during construction: the result of
`ImGui_ImplGlfw_InitForVulkan`; the Vulkan results `ImGui_ImplVulkan_Init`
reports to the callback and its result; whether `AddFontFromFileTTF` returns a
font; the Vulkan results `ImGui_ImplVulkan_CreateFontsTexture` reports and its
result; and `Vulkan::ToString`. -/
structure Presentation where
  ImGui_ImplGlfw_InitForVulkan : Bool
  ImGui_ImplVulkan_Init : List Int × Bool
  AddFontFromFileTTF : Bool
  ImGui_ImplVulkan_CreateFontsTexture : List Int × Bool
  ToString : Int → String

/-- `UserInterface::UserInterface(...)`.  The constructors of
`Vulkan::DescriptorPool` and `Vulkan::RenderPass` and
`Vulkan::SingleTimeCommands::Submit` are not among the sources: they are taken
to return, and `Submit` to run its action once. -/
def new (p : Presentation) : Except String Unit :=
  if !p.ImGui_ImplGlfw_InitForVulkan then
    .error "failed to initialise ImGui GLFW adapter"
  else
    match reportResults p.ToString p.ImGui_ImplVulkan_Init.1 with
    | .error e => .error e
    | .ok () =>
      if !p.ImGui_ImplVulkan_Init.2 then
        .error "failed to initialise ImGui vulkan adapter"
      else if !p.AddFontFromFileTTF then
        .error "failed to load ImGui font"
      else
        match reportResults p.ToString p.ImGui_ImplVulkan_CreateFontsTexture.1 with
        | .error e => .error e
        | .ok () =>
          if !p.ImGui_ImplVulkan_CreateFontsTexture.2 then
            .error "failed to create ImGui font textures"
          else
            .ok ()

/-- `std::toupper(window.GetKeyName(key, 0)[0])`, read on the first character
of the key name where the code reads its first byte. -/
def keyLetter (io : ImGui.Input) (key : Nat) : ImGui.Arg :=
  .char ((io.GetKeyName key).get 0).toUpper

/-- `UserInterface::DrawSettings()`.  The two bounds of the field of view are
`UserSettings::FieldOfViewMinValue` and `UserSettings::FieldOfViewMaxValue`,
constants that are not among the sources. -/
def DrawSettings (FieldOfViewMinValue FieldOfViewMaxValue : ℚ) (io : ImGui.Input)
    (s : UserSettings) (frame : List ImGui.Item) : UserSettings × List ImGui.Item :=
  if !s.ShowSettings then
    (s, frame)
  else
    let (visible, p_open, frame) :=
      ImGui.Begin io "🎮 Vulkan Gallery Renderer - Control Panel" s.ShowSettings frame
    let s := { s with ShowSettings := p_open }
    let (s, frame) :=
      if visible then
        let frame := ImGui.Text "Graphics Debugging Studio" [] frame
        let scenes := SceneList.AllScenes
        let frame := ImGui.Text "🎬 Scene Selection" [] frame
        let (SceneIndex, frame) := ImGui.Combo io "##SceneList" s.SceneIndex scenes frame
        let s := { s with SceneIndex := SceneIndex }
        let frame := ImGui.Text "⚡ Ray Tracing Engine" [] frame
        let (IsRayTraced, frame) :=
          ImGui.Checkbox io "🔥 Enable Real-time Ray Tracing" s.IsRayTraced frame
        let s := { s with IsRayTraced := IsRayTraced }
        let (AccumulateRays, frame) :=
          ImGui.Checkbox io "📈 Accumulate Samples" s.AccumulateRays frame
        let s := { s with AccumulateRays := AccumulateRays }
        let (min, max) := (1, 128)
        let frame := ImGui.Text "Samples per Pixel:" [] frame
        let (NumberOfSamples, frame) :=
          ImGui.SliderScalar io "##Samples" s.NumberOfSamples min max frame
        let s := { s with NumberOfSamples := NumberOfSamples }
        let (min, max) := (1, 32)
        let frame := ImGui.Text "Light Bounces:" [] frame
        let (NumberOfBounces, frame) :=
          ImGui.SliderScalar io "##Bounces" s.NumberOfBounces min max frame
        let s := { s with NumberOfBounces := NumberOfBounces }
        let frame := ImGui.Text "📷 Camera Settings" [] frame
        let (FieldOfView, frame) :=
          ImGui.SliderFloat io "Field of View" s.FieldOfView FieldOfViewMinValue
            FieldOfViewMaxValue frame
        let s := { s with FieldOfView := FieldOfView }
        let (Aperture, frame) := ImGui.SliderFloat io "Aperture (DoF)" s.Aperture 0 1 frame
        let s := { s with Aperture := Aperture }
        let (FocusDistance, frame) :=
          ImGui.SliderFloat io "Focus Distance" s.FocusDistance (1 / 10) 20 frame
        let s := { s with FocusDistance := FocusDistance }
        let frame := ImGui.Text "🔥 Performance Profiler" [] frame
        let (ShowHeatmap, frame) := ImGui.Checkbox io "🌡️  Show GPU Heatmap" s.ShowHeatmap frame
        let s := { s with ShowHeatmap := ShowHeatmap }
        let (HeatmapScale, frame) :=
          ImGui.SliderFloat io "Heatmap Scale" s.HeatmapScale (1 / 10) 10 frame
        let s := { s with HeatmapScale := HeatmapScale }
        let frame := ImGui.Text "⌨️  Controls" [] frame
        let frame := ImGui.BulletText "F1: Toggle this panel" [] frame
        let frame := ImGui.BulletText "F2: Toggle statistics" [] frame
        let frame := ImGui.BulletText "%c%c%c%c + SHIFT/CTRL: Camera movement"
          [keyLetter io GLFW_KEY_W, keyLetter io GLFW_KEY_A, keyLetter io GLFW_KEY_S,
           keyLetter io GLFW_KEY_D] frame
        let frame := ImGui.BulletText "Mouse: Camera rotation" [] frame
        (s, frame)
      else
        (s, frame)
    (s, ImGui.End frame)

/-- `UserInterface::DrawOverlay(statistics)`.  The fraction of the progress bar
is divided exactly where the code divides in `float`. -/
def DrawOverlay (io : ImGui.Input) (statistics : Statistics) (s : UserSettings)
    (frame : List ImGui.Item) : UserSettings × List ImGui.Item :=
  if !s.ShowOverlay then
    (s, frame)
  else
    let (visible, p_open, frame) :=
      ImGui.Begin io "🔬 Graphics Debug Console" s.ShowOverlay frame
    let s := { s with ShowOverlay := p_open }
    let frame :=
      if visible then
        let frame := ImGui.Text "Professional Graphics Debugging" [] frame
        let frame := ImGui.Text "🎯 RenderDoc Integration" [] frame
        let frame :=
          if statistics.RenderDocAvailable then
            let frame := ImGui.Text "✅ RenderDoc API: Connected" [] frame
            let frame :=
              if statistics.RenderDocCapturing then
                let frame := ImGui.Text "🔴 RECORDING FRAME" [] frame
                ImGui.Text "(Ctrl+F12 to stop)" [] frame
              else
                ImGui.Text "⚪ Ready for Capture" [] frame
            let frame := ImGui.Text "Capture Controls:" [] frame
            let frame := ImGui.BulletText "F12: Single Frame Capture" [] frame
            let frame := ImGui.BulletText "Ctrl+F12: Manual Recording Mode" [] frame
            let frame := ImGui.BulletText "Analysis: Open .rdc in RenderDoc" [] frame
            let frame := ImGui.Text "💡 Debug Workflow:" [] frame
            let frame := ImGui.Text "  • Press F12 during interesting frames" [] frame
            let frame := ImGui.Text "  • Analyze GPU workload in RenderDoc" [] frame
            let frame := ImGui.Text "  • Profile draw calls & shaders" [] frame
            ImGui.Text "  • Optimize performance bottlenecks" [] frame
          else
            let frame := ImGui.Text "❌ RenderDoc: Not Detected" [] frame
            let frame := ImGui.Text "Launch app through RenderDoc for debugging" [] frame
            let frame := ImGui.Text "To enable debugging:" [] frame
            let frame := ImGui.BulletText "Install RenderDoc from GitHub" [] frame
            let frame := ImGui.BulletText "Launch this app through RenderDoc" [] frame
            ImGui.BulletText "Or inject renderdoc.dll" [] frame
        let frame := ImGui.Text "📊 Real-time Performance" [] frame
        let frame := ImGui.Text "Resolution: %dx%d"
          [.int statistics.FramebufferSize.1, .int statistics.FramebufferSize.2] frame
        let fps := statistics.FrameRate
        let frame := ImGui.Text "Frame Rate: %.1f fps" [.float fps] frame
        let frame := ImGui.Text "Ray Throughput: %.2f Gr/s" [.float statistics.RayRate] frame
        let frame := ImGui.Text "Accumulated Samples: %u" [.int statistics.TotalSamples] frame
        let performance := fps / 60
        let performance := if performance > 1 then 1 else performance
        let frame := ImGui.Text "GPU Performance:" [] frame
        let frame := ImGui.ProgressBar performance frame
        let frame := ImGui.Text "Graphics Programming Portfolio Project" [] frame
        ImGui.Text "Real-time Ray Tracing • Vulkan API • RenderDoc Integration" [] frame
      else
        frame
    (s, ImGui.End frame)

/-- `UserInterface::DrawRenderDocDebugger(statistics)`.  The dots are counted
from the clock as it is where the code first rounds it to `float`. -/
def DrawRenderDocDebugger (io : ImGui.Input) (statistics : Statistics)
    (frame : List ImGui.Item) : List ImGui.Item :=
  if !statistics.RenderDocAvailable then
    frame
  else
    let renderDocOpen := true
    let (visible, _, frame) :=
      ImGui.Begin io "🎯 RenderDoc Professional Debugger" renderDocOpen frame
    let frame :=
      if visible then
        let frame := ImGui.Text "🔬 GPU Frame Analysis & Debugging Tools" [] frame
        let frame := ImGui.Text "📸 Frame Capture" [] frame
        let frame :=
          if statistics.RenderDocCapturing then
            let frame := ImGui.Text "🔴 RECORDING" [] frame
            let time := io.GetTime
            let dots := Int.tmod (Int.tdiv (time * 2).num (time * 2).den) 4
            let recording := "ACTIVE" ++ String.join (List.replicate dots.toNat ".")
            ImGui.Text "%s" [.str recording] frame
          else
            ImGui.Text "✅ Ready for Capture" [] frame
        let frame := ImGui.Text "Quick Actions:" [] frame
        let frame := ImGui.BulletText "F12: Instant frame grab" [] frame
        let frame := ImGui.BulletText "Ctrl+F12: Recording mode" [] frame
        let frame := ImGui.BulletText "ESC: Cancel recording" [] frame
        let frame := ImGui.Text "💡 Pro Tips:" [] frame
        let frame := ImGui.Text "• Capture during complex scenes" [] frame
        let frame := ImGui.Text "• Focus on shader-heavy frames" [] frame
        let frame := ImGui.Text "• Monitor GPU memory usage" [] frame
        let frame := ImGui.Text "📊 Analysis Workflow" [] frame
        let frame := ImGui.Text "After capturing:" [] frame
        let frame := ImGui.BulletText "Open .rdc file in RenderDoc" [] frame
        let frame := ImGui.BulletText "Analyze draw call hierarchy" [] frame
        let frame := ImGui.BulletText "Inspect shader performance" [] frame
        let frame := ImGui.BulletText "Check GPU resource usage" [] frame
        let frame := ImGui.BulletText "Profile render targets" [] frame
        let frame := ImGui.Text "🎯 Debug Focus Areas:" [] frame
        let frame := ImGui.Text "• Ray tracing performance" [] frame
        let frame := ImGui.Text "• Acceleration structure builds" [] frame
        let frame := ImGui.Text "• Shader execution time" [] frame
        let frame := ImGui.Text "• Memory bandwidth usage" [] frame
        let frame := ImGui.Text "• Pipeline state validation" [] frame
        ImGui.Text "Industry-standard graphics debugging • Professional development workflow"
          [] frame
      else
        frame
    ImGui.End frame

/-- `UserInterface::Render(commandBuffer, frameBuffer, statistics)`: the
settings after the frame and the frame built. -/
def Render (FieldOfViewMinValue FieldOfViewMaxValue : ℚ) (io : ImGui.Input)
    (statistics : Statistics) (s : UserSettings) : UserSettings × List ImGui.Item :=
  let frame := []
  let (s, frame) := DrawSettings FieldOfViewMinValue FieldOfViewMaxValue io s frame
  let (s, frame) := DrawOverlay io statistics s frame
  let frame := DrawRenderDocDebugger io statistics frame
  (s, frame)

/-- The declared ranges of the numeric fields, as `DrawSettings` hands them to
the sliders. -/
def inRange (FieldOfViewMinValue FieldOfViewMaxValue : ℚ) (s : UserSettings) : Prop :=
  (1 ≤ s.NumberOfSamples ∧ s.NumberOfSamples ≤ 128) ∧
  (1 ≤ s.NumberOfBounces ∧ s.NumberOfBounces ≤ 32) ∧
  (FieldOfViewMinValue ≤ s.FieldOfView ∧ s.FieldOfView ≤ FieldOfViewMaxValue) ∧
  (0 ≤ s.Aperture ∧ s.Aperture ≤ 1) ∧
  (1 / 10 ≤ s.FocusDistance ∧ s.FocusDistance ≤ 20) ∧
  (1 / 10 ≤ s.HeatmapScale ∧ s.HeatmapScale ≤ 10)

/-- Whether the settings are within the declared ranges can be computed. -/
instance (FieldOfViewMinValue FieldOfViewMaxValue : ℚ) (s : UserSettings) :
    Decidable (inRange FieldOfViewMinValue FieldOfViewMaxValue s) := by
  unfold inRange
  infer_instance

/-- A frame in which the user offers 500 samples per pixel and an aperture of
-1 and otherwise does nothing. -/
def offeringInput : ImGui.Input where
  Begin := fun _ => true
  Closed := fun _ => false
  Combo := fun _ => none
  Checkbox := fun _ => false
  SliderScalar := fun label => if label = "##Samples" then some 500 else none
  SliderFloat := fun label => if label = "Aperture (DoF)" then some (-1) else none
  GetTime := 0
  GetKeyName := fun _ => "w"

/-- The titles of the windows a frame opens. -/
def windows (frame : List ImGui.Item) : List String :=
  frame.filterMap fun item =>
    match item with
    | .Begin name => some name
    | _ => none

/-- A frame in which the user does nothing: every window is filled, nothing is
pressed, selected or offered, and the clock stands at `time`. -/
def idleInput (time : ℚ) : ImGui.Input where
  Begin := fun _ => true
  Closed := fun _ => false
  Combo := fun _ => none
  Checkbox := fun _ => false
  SliderScalar := fun _ => none
  SliderFloat := fun _ => none
  GetTime := time
  GetKeyName := fun _ => "w"

/-- Settings within their ranges with the given visibility of panel and
overlay. -/
def sampleSettings (ShowSettings ShowOverlay : Bool) : UserSettings where
  SceneIndex := 0
  IsRayTraced := true
  AccumulateRays := true
  NumberOfSamples := 8
  NumberOfBounces := 16
  FieldOfView := 45
  Aperture := 0
  FocusDistance := 6
  ShowHeatmap := false
  HeatmapScale := 1
  ShowSettings := ShowSettings
  ShowOverlay := ShowOverlay

/-- A statistics snapshot with the given capture availability and activity. -/
def sampleStatistics (RenderDocAvailable RenderDocCapturing : Bool) : Statistics where
  FramebufferSize := (1280, 720)
  FrameRate := 60
  RayRate := 1
  TotalSamples := 8
  RenderDocAvailable := RenderDocAvailable
  RenderDocCapturing := RenderDocCapturing

end UserInterface

namespace Utilities

open RenderDocManager

variable {σ : Type}

/-! ## Unbound coordinator -/

/-- C1: on an unbound coordinator `IsAvailable()` and `IsCapturing()` are
false, and each of `StartCapture()`, `EndCapture()` and `TriggerCapture()`
returns with the coordinator and the world exactly as they were: no table
primitive is invoked, nothing is written, and the session is still `Unbound`
and not capturing afterwards. -/
theorem unbound_operations_are_noops (m : RenderDocManager σ) (w : World σ)
    (h : m.renderDocAPI_ = none) :
    m.IsAvailable = false ∧ m.IsCapturing w = (false, w) ∧
    captureState m w = .Unbound ∧
    m.StartCapture w = (m, w) ∧ m.EndCapture w = (m, w) ∧ m.TriggerCapture w = (m, w) ∧
    (∀ op ∈ [Op.StartCapture, Op.EndCapture, Op.TriggerCapture], ∀ P : Process σ,
      (step P op (m, w)).2.calls = w.calls ∧
      (step P op (m, w)).1.IsAvailable = false ∧
      ((step P op (m, w)).1.IsCapturing (step P op (m, w)).2).1 = false ∧
      captureState (step P op (m, w)).1 (step P op (m, w)).2 = .Unbound) := by
  have hs : m.StartCapture w = (m, w) := by simp [StartCapture, h]
  have he : m.EndCapture w = (m, w) := by simp [EndCapture, h]
  have ht : m.TriggerCapture w = (m, w) := by simp [TriggerCapture, h]
  have ha : m.IsAvailable = false := by simp [IsAvailable, h]
  have hc : m.IsCapturing w = (false, w) := by simp [IsCapturing, h]
  have hu : captureState m w = .Unbound := by simp [captureState, ha]
  refine ⟨ha, hc, hu, hs, he, ht, ?_⟩
  intro op hop P
  simp only [List.mem_cons, List.mem_singleton, List.not_mem_nil, or_false] at hop
  rcases hop with rfl | rfl | rfl <;> simp [step, hs, he, ht, ha, hc, hu]

/-- The freshly constructed coordinator is unbound, and C1 holds of it. -/
theorem unbound_operations_are_noops_witness :
    (new : RenderDocManager Unit).renderDocAPI_ = none ∧
    (new : RenderDocManager Unit).IsAvailable = false ∧
    (new : RenderDocManager Unit).StartCapture (World.init ()) = (new, World.init ()) :=
  ⟨rfl, (unbound_operations_are_noops new (World.init ()) rfl).1,
    (unbound_operations_are_noops new (World.init ()) rfl).2.2.2.1⟩

/-! ## Bound coordinator: the manual start/end protocol -/

/-- On a bound coordinator the session is `Recording` exactly when the
provider's capturing query answers 1. -/
theorem captureState_eq_recording_iff (m : RenderDocManager σ) (api : RENDERDOC_API_1_1_2 σ)
    (w : World σ) (hb : m.renderDocAPI_ = some api) :
    captureState m w = .Recording ↔ uint32_t (api.IsFrameCapturing w.provider) = 1 := by
  by_cases hq : uint32_t (api.IsFrameCapturing w.provider) = 1 <;>
    simp [captureState, IsAvailable, IsCapturing, hb, hq]

/-- On a bound coordinator the session is `Idle` exactly when the provider's
capturing query answers something other than 1. -/
theorem captureState_eq_idle_iff (m : RenderDocManager σ) (api : RENDERDOC_API_1_1_2 σ)
    (w : World σ) (hb : m.renderDocAPI_ = some api) :
    captureState m w = .Idle ↔ uint32_t (api.IsFrameCapturing w.provider) ≠ 1 := by
  by_cases hq : uint32_t (api.IsFrameCapturing w.provider) = 1 <;>
    simp [captureState, IsAvailable, IsCapturing, hb, hq]

/-- C2: on a bound coordinator in state `Idle`, `StartCapture()` queries the
provider and then invokes its start primitive exactly once, the provider moves
to the state its start primitive yields, the last outcome is "Manual capture
started", the binding is kept, and with a provider that reports capturing once
its start primitive has run `IsCapturing()` is true afterwards: the session
is `Recording`. -/
theorem start_from_idle (m : RenderDocManager σ) (api : RENDERDOC_API_1_1_2 σ) (w : World σ)
    (hb : m.renderDocAPI_ = some api) (hidle : captureState m w = .Idle) :
    (m.StartCapture w).2.calls = w.calls ++ [.IsFrameCapturing, .StartFrameCapture] ∧
    (m.StartCapture w).2.calls.count .StartFrameCapture
      = w.calls.count .StartFrameCapture + 1 ∧
    (m.StartCapture w).2.provider = api.StartFrameCapture w.provider ∧
    (m.StartCapture w).1.GetLastCaptureInfo = "Manual capture started" ∧
    (m.StartCapture w).1.renderDocAPI_ = some api ∧
    (uint32_t (api.IsFrameCapturing (api.StartFrameCapture w.provider)) = 1 →
      ((m.StartCapture w).1.IsCapturing (m.StartCapture w).2).1 = true ∧
      captureState (m.StartCapture w).1 (m.StartCapture w).2 = .Recording) := by
  have hq := (captureState_eq_idle_iff m api w hb).1 hidle
  have hs : m.StartCapture w =
      ({ m with lastCaptureInfo_ := "Manual capture started" },
       { (Console.Write .Info ["[RenderDoc] Starting frame capture..."]
            (w.call .IsFrameCapturing)).call .StartFrameCapture with
          provider := api.StartFrameCapture w.provider }) := by
    simp [StartCapture, IsCapturing, hb, hq, Console.Write, World.call]
  rw [hs]
  refine ⟨by simp [Console.Write, World.call], ?_, rfl, rfl, hb, ?_⟩
  · simp [Console.Write, World.call, List.count_append]
  · intro hrec
    simp [captureState, IsAvailable, IsCapturing, hb, hrec]

/-- The stub provider bound to a coordinator is `Idle` at first and `Recording`
after `StartCapture()`. -/
theorem start_from_idle_witness :
    captureState (⟨some (stubProvider 1), ""⟩ : RenderDocManager Bool) (World.init false) = .Idle ∧
    captureState
      ((⟨some (stubProvider 1), ""⟩ : RenderDocManager Bool).StartCapture (World.init false)).1
      ((⟨some (stubProvider 1), ""⟩ : RenderDocManager Bool).StartCapture (World.init false)).2
      = .Recording :=
  ⟨by decide,
   ((start_from_idle ⟨some (stubProvider 1), ""⟩ (stubProvider 1) (World.init false) rfl
      (by decide)).2.2.2.2.2 (by decide)).2⟩

/-- C3: protocol misuse on a bound coordinator is a no-op that keeps the state.
`StartCapture()` while the session is `Recording` only queries the provider:
the start primitive is not invoked, the coordinator and the provider state are
unchanged, and the session is still `Recording`.  `EndCapture()` while the
session is `Idle` only queries the provider: the end primitive is not invoked,
the coordinator and the provider state are unchanged, and the session is still
`Idle`. -/
theorem misuse_is_noop (m : RenderDocManager σ) (api : RENDERDOC_API_1_1_2 σ) (w : World σ)
    (hb : m.renderDocAPI_ = some api) :
    (captureState m w = .Recording →
      (m.StartCapture w).1 = m ∧
      (m.StartCapture w).2.calls = w.calls ++ [.IsFrameCapturing] ∧
      (m.StartCapture w).2.calls.count .StartFrameCapture = w.calls.count .StartFrameCapture ∧
      (m.StartCapture w).2.provider = w.provider ∧
      captureState (m.StartCapture w).1 (m.StartCapture w).2 = .Recording) ∧
    (captureState m w = .Idle →
      (m.EndCapture w).1 = m ∧
      (m.EndCapture w).2.calls = w.calls ++ [.IsFrameCapturing] ∧
      (m.EndCapture w).2.calls.count .EndFrameCapture = w.calls.count .EndFrameCapture ∧
      (m.EndCapture w).2.provider = w.provider ∧
      captureState (m.EndCapture w).1 (m.EndCapture w).2 = .Idle) := by
  constructor
  · intro hrec
    have hq := (captureState_eq_recording_iff m api w hb).1 hrec
    have hs : m.StartCapture w =
        (m, Console.Write .Warning ["[RenderDoc] Capture already in progress"]
              (w.call .IsFrameCapturing)) := by
      simp [StartCapture, IsCapturing, hb, hq]
    rw [hs]
    refine ⟨rfl, by simp [Console.Write, World.call], ?_, rfl, ?_⟩
    · simp [Console.Write, World.call, List.count_append]
    · simp [captureState, IsAvailable, IsCapturing, hb, hq, Console.Write, World.call]
  · intro hidle
    have hq := (captureState_eq_idle_iff m api w hb).1 hidle
    have hs : m.EndCapture w =
        (m, Console.Write .Warning ["[RenderDoc] No active capture to end"]
              (w.call .IsFrameCapturing)) := by
      simp [EndCapture, IsCapturing, hb, hq]
    rw [hs]
    refine ⟨rfl, by simp [Console.Write, World.call], ?_, rfl, ?_⟩
    · simp [Console.Write, World.call, List.count_append]
    · simp [captureState, IsAvailable, IsCapturing, hb, hq, Console.Write, World.call]

/-- With the stub provider: a second `StartCapture()` leaves the session
`Recording`, and an `EndCapture()` on the idle session leaves it `Idle`. -/
theorem misuse_is_noop_witness :
    captureState (⟨some (stubProvider 1), ""⟩ : RenderDocManager Bool) (World.init true)
      = .Recording ∧
    captureState
      ((⟨some (stubProvider 1), ""⟩ : RenderDocManager Bool).StartCapture (World.init true)).1
      ((⟨some (stubProvider 1), ""⟩ : RenderDocManager Bool).StartCapture (World.init true)).2
      = .Recording ∧
    captureState (⟨some (stubProvider 1), ""⟩ : RenderDocManager Bool) (World.init false)
      = .Idle ∧
    captureState
      ((⟨some (stubProvider 1), ""⟩ : RenderDocManager Bool).EndCapture (World.init false)).1
      ((⟨some (stubProvider 1), ""⟩ : RenderDocManager Bool).EndCapture (World.init false)).2
      = .Idle :=
  ⟨by decide,
   ((misuse_is_noop ⟨some (stubProvider 1), ""⟩ (stubProvider 1) (World.init true) rfl).1
      (by decide)).2.2.2.2,
   by decide,
   ((misuse_is_noop ⟨some (stubProvider 1), ""⟩ (stubProvider 1) (World.init false) rfl).2
      (by decide)).2.2.2.2⟩

/-- C4, as the code has it: on a bound coordinator in state `Recording`,
`StartCapture()` records no outcome.  `GetLastCaptureInfo()` returns the same
string as before the call, and "Capture already in progress" is written to the
console only, as one warning line. -/
theorem start_while_recording_keeps_outcome (m : RenderDocManager σ)
    (api : RENDERDOC_API_1_1_2 σ) (w : World σ)
    (hb : m.renderDocAPI_ = some api) (hrec : captureState m w = .Recording) :
    (m.StartCapture w).1.GetLastCaptureInfo = m.GetLastCaptureInfo ∧
    (m.StartCapture w).2.console
      = w.console ++ [(Severity.Warning, "[RenderDoc] Capture already in progress")] := by
  have hq := (captureState_eq_recording_iff m api w hb).1 hrec
  simp [StartCapture, IsCapturing, hb, hq, Console.Write, World.call]

/-- With the stub provider recording, a `StartCapture()` keeps the outcome
"Manual capture started" of the call that began the capture. -/
theorem start_while_recording_keeps_outcome_witness :
    captureState (⟨some (stubProvider 1), "Manual capture started"⟩ : RenderDocManager Bool)
      (World.init true) = .Recording ∧
    ((⟨some (stubProvider 1), "Manual capture started"⟩ : RenderDocManager Bool).StartCapture
      (World.init true)).1.GetLastCaptureInfo = "Manual capture started" :=
  ⟨by decide,
   (start_while_recording_keeps_outcome ⟨some (stubProvider 1), "Manual capture started"⟩
      (stubProvider 1) (World.init true) rfl (by decide)).1⟩

/-- C4, as stated, fails: bind the stub provider and call `StartCapture()`
twice.  Before the second call the session is `Recording`; after it the last
outcome is still "Manual capture started", the outcome of the first call, which
does not say that a capture was already in progress. -/
theorem second_start_outcome_counterexample :
    captureState
      (run (stubProcess 1 (some (stubProvider 1))) [.Initialize (0, 0, 0), .StartCapture]
        (new, World.init false)).1
      (run (stubProcess 1 (some (stubProvider 1))) [.Initialize (0, 0, 0), .StartCapture]
        (new, World.init false)).2 = .Recording ∧
    (run (stubProcess 1 (some (stubProvider 1)))
      [.Initialize (0, 0, 0), .StartCapture, .StartCapture]
      (new, World.init false)).1.GetLastCaptureInfo = "Manual capture started" ∧
    indicatesAlreadyInProgress
      (run (stubProcess 1 (some (stubProvider 1)))
        [.Initialize (0, 0, 0), .StartCapture, .StartCapture]
        (new, World.init false)).1.GetLastCaptureInfo = false := by
  decide

/-- C5, as the code has it: on a bound coordinator in state `Recording`,
`EndCapture()` queries the provider and then invokes its end primitive exactly
once, and keeps the binding.  The coordinator has no capture state of its own:
`IsCapturing()` afterwards is true exactly when the provider still answers 1
after its end primitive has run, so the session is `Idle` afterwards when the
provider no longer reports a capture, whatever result the end primitive gave. -/
theorem end_from_recording (m : RenderDocManager σ) (api : RENDERDOC_API_1_1_2 σ) (w : World σ)
    (hb : m.renderDocAPI_ = some api) (hrec : captureState m w = .Recording) :
    (m.EndCapture w).2.calls = w.calls ++ [.IsFrameCapturing, .EndFrameCapture] ∧
    (m.EndCapture w).2.calls.count .EndFrameCapture = w.calls.count .EndFrameCapture + 1 ∧
    (m.EndCapture w).2.provider = (api.EndFrameCapture w.provider).2 ∧
    (m.EndCapture w).1.renderDocAPI_ = some api ∧
    (((m.EndCapture w).1.IsCapturing (m.EndCapture w).2).1 = true ↔
      uint32_t (api.IsFrameCapturing (api.EndFrameCapture w.provider).2) = 1) ∧
    (uint32_t (api.IsFrameCapturing (api.EndFrameCapture w.provider).2) ≠ 1 →
      captureState (m.EndCapture w).1 (m.EndCapture w).2 = .Idle) := by
  have hq := (captureState_eq_recording_iff m api w hb).1 hrec
  by_cases hr : uint32_t (api.EndFrameCapture w.provider).1 = 1 <;>
  by_cases hp : uint32_t (api.IsFrameCapturing (api.EndFrameCapture w.provider).2) = 1 <;>
    simp [EndCapture, IsCapturing, captureState, IsAvailable, hb, hq, hr, hp, Console.Write,
      World.call, List.count_append]

/-- With the stub provider recording and its end primitive reporting failure
(0), the session is `Idle` after `EndCapture()`. -/
theorem end_from_recording_witness :
    captureState (⟨some (stubProvider 0), ""⟩ : RenderDocManager Bool) (World.init true)
      = .Recording ∧
    captureState
      ((⟨some (stubProvider 0), ""⟩ : RenderDocManager Bool).EndCapture (World.init true)).1
      ((⟨some (stubProvider 0), ""⟩ : RenderDocManager Bool).EndCapture (World.init true)).2
      = .Idle :=
  ⟨by decide,
   (end_from_recording ⟨some (stubProvider 0), ""⟩ (stubProvider 0) (World.init true) rfl
      (by decide)).2.2.2.2.2 (by decide)⟩

/-- C5, as stated, fails for a provider that goes on reporting a capture: with
the stub whose capturing query always answers 1, the session is `Recording`,
`EndCapture()` invokes the end primitive once, and `IsCapturing()` is still
true afterwards: the session is `Recording`, not `Idle`. -/
theorem end_from_recording_counterexample :
    captureState (⟨some (constProvider 1), ""⟩ : RenderDocManager Unit) (World.init ())
      = .Recording ∧
    ((⟨some (constProvider 1), ""⟩ : RenderDocManager Unit).EndCapture (World.init ())).2.calls
      = [.IsFrameCapturing, .EndFrameCapture] ∧
    (((⟨some (constProvider 1), ""⟩ : RenderDocManager Unit).EndCapture (World.init ())).1.IsCapturing
      ((⟨some (constProvider 1), ""⟩ : RenderDocManager Unit).EndCapture (World.init ())).2).1
      = true ∧
    captureState
      ((⟨some (constProvider 1), ""⟩ : RenderDocManager Unit).EndCapture (World.init ())).1
      ((⟨some (constProvider 1), ""⟩ : RenderDocManager Unit).EndCapture (World.init ())).2
      ≠ .Idle := by
  decide

/-- C6: on a bound coordinator in state `Recording`, the outcome recorded by
`EndCapture()` is "Manual capture completed successfully" when the end
primitive answered 1 and "Manual capture failed" otherwise; the two strings
differ, so the outcome is the success outcome if and only if the end primitive
answered 1. -/
theorem end_outcome_reflects_result (m : RenderDocManager σ) (api : RENDERDOC_API_1_1_2 σ)
    (w : World σ) (hb : m.renderDocAPI_ = some api) (hrec : captureState m w = .Recording) :
    (uint32_t (api.EndFrameCapture w.provider).1 = 1 →
      (m.EndCapture w).1.GetLastCaptureInfo = "Manual capture completed successfully") ∧
    (uint32_t (api.EndFrameCapture w.provider).1 ≠ 1 →
      (m.EndCapture w).1.GetLastCaptureInfo = "Manual capture failed") ∧
    "Manual capture completed successfully" ≠ "Manual capture failed" ∧
    ((m.EndCapture w).1.GetLastCaptureInfo = "Manual capture completed successfully" ↔
      uint32_t (api.EndFrameCapture w.provider).1 = 1) := by
  have hq := (captureState_eq_recording_iff m api w hb).1 hrec
  have hne : "Manual capture completed successfully" ≠ "Manual capture failed" := by decide
  have hne2 : "Manual capture failed" ≠ "Manual capture completed successfully" := by decide
  by_cases hr : uint32_t (api.EndFrameCapture w.provider).1 = 1 <;>
    simp [EndCapture, IsCapturing, GetLastCaptureInfo, hb, hq, hr, hne, hne2, Console.Write,
      World.call]

/-- With the stub provider recording: an end primitive answering 1 gives the
success outcome, one answering 0 the failed outcome. -/
theorem end_outcome_reflects_result_witness :
    ((⟨some (stubProvider 1), ""⟩ : RenderDocManager Bool).EndCapture
      (World.init true)).1.GetLastCaptureInfo = "Manual capture completed successfully" ∧
    ((⟨some (stubProvider 0), ""⟩ : RenderDocManager Bool).EndCapture
      (World.init true)).1.GetLastCaptureInfo = "Manual capture failed" :=
  ⟨(end_outcome_reflects_result ⟨some (stubProvider 1), ""⟩ (stubProvider 1) (World.init true)
      rfl (by decide)).1 (by decide),
   (end_outcome_reflects_result ⟨some (stubProvider 0), ""⟩ (stubProvider 0) (World.init true)
      rfl (by decide)).2.1 (by decide)⟩

/-! ## Outcomes of the no-op paths, and the single-frame trigger -/

/-- C7, as the code has it: a no-op path records no outcome.  On an unbound
coordinator `StartCapture()`, `EndCapture()` and `TriggerCapture()` leave
`GetLastCaptureInfo()` as it was and write nothing to the console; on a bound
coordinator in state `Idle`, `EndCapture()` leaves `GetLastCaptureInfo()` as it
was and writes the one warning line "No active capture to end". -/
theorem noop_paths_keep_outcome (m : RenderDocManager σ) (w : World σ) :
    (m.renderDocAPI_ = none →
      ∀ op ∈ [Op.StartCapture, Op.EndCapture, Op.TriggerCapture], ∀ P : Process σ,
        (step P op (m, w)).1.GetLastCaptureInfo = m.GetLastCaptureInfo ∧
        (step P op (m, w)).2.console = w.console) ∧
    (∀ api, m.renderDocAPI_ = some api → captureState m w = .Idle →
      (m.EndCapture w).1.GetLastCaptureInfo = m.GetLastCaptureInfo ∧
      (m.EndCapture w).2.console
        = w.console ++ [(Severity.Warning, "[RenderDoc] No active capture to end")]) := by
  constructor
  · intro h op hop P
    simp only [List.mem_cons, List.mem_singleton, List.not_mem_nil, or_false] at hop
    rcases hop with rfl | rfl | rfl <;>
      simp [step, StartCapture, EndCapture, TriggerCapture, h]
  · intro api hb hidle
    have hq := (captureState_eq_idle_iff m api w hb).1 hidle
    simp [EndCapture, IsCapturing, hb, hq, Console.Write, World.call]

/-- On the fresh coordinator `StartCapture()` leaves the empty outcome; on the
idle stub provider `EndCapture()` leaves the outcome it found. -/
theorem noop_paths_keep_outcome_witness :
    ((new : RenderDocManager Bool).StartCapture (World.init false)).1.GetLastCaptureInfo = "" ∧
    ((⟨some (stubProvider 1), "Single frame capture triggered"⟩ : RenderDocManager Bool).EndCapture
      (World.init false)).1.GetLastCaptureInfo = "Single frame capture triggered" :=
  ⟨((noop_paths_keep_outcome new (World.init false)).1 rfl Op.StartCapture (by simp)
      (stubProcess 1 none)).1,
   ((noop_paths_keep_outcome ⟨some (stubProvider 1), "Single frame capture triggered"⟩
      (World.init false)).2 (stubProvider 1) rfl (by decide)).1⟩

/-- C7, as stated, fails.  On the freshly constructed, unbound coordinator the
last outcome after `StartCapture()`, after `TriggerCapture()` and after
`EndCapture()` is the empty string, not "provider unavailable" and not "no
active capture".  On the stub provider, bound and `Idle` after a
`TriggerCapture()`, the last outcome after `EndCapture()` is still "Single
frame capture triggered", not "no active capture". -/
theorem noop_outcome_counterexample :
    ((new : RenderDocManager Bool).StartCapture (World.init false)).1.GetLastCaptureInfo = "" ∧
    ((new : RenderDocManager Bool).StartCapture (World.init false)).1.GetLastCaptureInfo
      ≠ "provider unavailable" ∧
    ((new : RenderDocManager Bool).TriggerCapture (World.init false)).1.GetLastCaptureInfo = "" ∧
    ((new : RenderDocManager Bool).TriggerCapture (World.init false)).1.GetLastCaptureInfo
      ≠ "provider unavailable" ∧
    ((new : RenderDocManager Bool).EndCapture (World.init false)).1.GetLastCaptureInfo = "" ∧
    ((new : RenderDocManager Bool).EndCapture (World.init false)).1.GetLastCaptureInfo
      ≠ "no active capture" ∧
    captureState
      (run (stubProcess 1 (some (stubProvider 1))) [.Initialize (0, 0, 0), .TriggerCapture]
        (new, World.init false)).1
      (run (stubProcess 1 (some (stubProvider 1))) [.Initialize (0, 0, 0), .TriggerCapture]
        (new, World.init false)).2 = .Idle ∧
    (run (stubProcess 1 (some (stubProvider 1)))
      [.Initialize (0, 0, 0), .TriggerCapture, .EndCapture]
      (new, World.init false)).1.GetLastCaptureInfo = "Single frame capture triggered" ∧
    (run (stubProcess 1 (some (stubProvider 1)))
      [.Initialize (0, 0, 0), .TriggerCapture, .EndCapture]
      (new, World.init false)).1.GetLastCaptureInfo ≠ "no active capture" := by
  decide

/-- C8: on a bound coordinator `TriggerCapture()` invokes the provider's
trigger primitive exactly once and no other primitive, so neither the start nor
the end primitive; it records the outcome "Single frame capture triggered" and
keeps the binding.  The coordinator adds no state of its own to the answer of
`IsCapturing()`: afterwards it is true exactly when the provider's capturing
query answers 1 in the state its trigger primitive left, and it equals the
answer before the call whenever the trigger primitive leaves that query's
answer alone. -/
theorem trigger_when_bound (m : RenderDocManager σ) (api : RENDERDOC_API_1_1_2 σ) (w : World σ)
    (hb : m.renderDocAPI_ = some api) :
    (m.TriggerCapture w).2.calls = w.calls ++ [.TriggerCapture] ∧
    (m.TriggerCapture w).2.calls.count .TriggerCapture = w.calls.count .TriggerCapture + 1 ∧
    (m.TriggerCapture w).2.calls.count .StartFrameCapture = w.calls.count .StartFrameCapture ∧
    (m.TriggerCapture w).2.calls.count .EndFrameCapture = w.calls.count .EndFrameCapture ∧
    (m.TriggerCapture w).2.provider = api.TriggerCapture w.provider ∧
    (m.TriggerCapture w).1.GetLastCaptureInfo = "Single frame capture triggered" ∧
    (m.TriggerCapture w).1.renderDocAPI_ = some api ∧
    (((m.TriggerCapture w).1.IsCapturing (m.TriggerCapture w).2).1 = true ↔
      uint32_t (api.IsFrameCapturing (api.TriggerCapture w.provider)) = 1) ∧
    (api.IsFrameCapturing (api.TriggerCapture w.provider) = api.IsFrameCapturing w.provider →
      ((m.TriggerCapture w).1.IsCapturing (m.TriggerCapture w).2).1 = (m.IsCapturing w).1) := by
  have ht : m.TriggerCapture w =
      ({ m with lastCaptureInfo_ := "Single frame capture triggered" },
       Console.Write .Info ["[RenderDoc] Single frame captured!"]
         { (Console.Write .Info ["[RenderDoc] Triggering single frame capture..."] w).call
              .TriggerCapture with provider := api.TriggerCapture w.provider }) := by
    simp [TriggerCapture, hb, Console.Write, World.call]
  rw [ht]
  refine ⟨by simp [Console.Write, World.call], ?_, ?_, ?_, rfl, rfl, hb, ?_, ?_⟩
  · simp [Console.Write, World.call, List.count_append]
  · simp [Console.Write, World.call, List.count_append]
  · simp [Console.Write, World.call, List.count_append]
  · simp [IsCapturing, hb, Console.Write, World.call]
  · intro hsame
    simp [IsCapturing, hb, Console.Write, World.call, hsame]

/-- With the stub provider reporting version 1.1.2, idle or recording:
`TriggerCapture()` records its outcome and `IsCapturing()` afterwards is what
the stub's capturing flag says. -/
theorem trigger_when_bound_witness :
    ((⟨some (stubProvider 1), ""⟩ : RenderDocManager Bool).TriggerCapture
      (World.init false)).1.GetLastCaptureInfo = "Single frame capture triggered" ∧
    (((⟨some (stubProvider 1), ""⟩ : RenderDocManager Bool).TriggerCapture (World.init true)).1.IsCapturing
      ((⟨some (stubProvider 1), ""⟩ : RenderDocManager Bool).TriggerCapture (World.init true)).2).1
      = true :=
  ⟨(trigger_when_bound ⟨some (stubProvider 1), ""⟩ (stubProvider 1) (World.init false)
      rfl).2.2.2.2.2.1,
   (trigger_when_bound ⟨some (stubProvider 1), ""⟩ (stubProvider 1) (World.init true)
      rfl).2.2.2.2.2.2.2.1.2 (by decide)⟩

/-! ## What `IsCapturing()` answers -/

/-- `IsCapturing()` is true exactly when a table is bound and its capturing
query answers 1 in the current provider state. -/
theorem isCapturing_eq_true_iff (m : RenderDocManager σ) (w : World σ) :
    (m.IsCapturing w).1 = true ↔
      ∃ api, m.renderDocAPI_ = some api ∧ uint32_t (api.IsFrameCapturing w.provider) = 1 := by
  cases hb : m.renderDocAPI_ with
  | none => simp [IsCapturing, hb]
  | some api => simp [IsCapturing, hb]

/-- C9, as the code has it: after every sequence of coordinator calls, in every
process and from every starting point, `IsCapturing()` is true if and only if
the coordinator is bound and the provider's capturing query answers 1 in the
provider state the calls have led to.  No record of a manual `StartCapture()`
enters the answer. -/
theorem isCapturing_after_run (P : Process σ) (ops : List Op)
    (c : RenderDocManager σ × World σ) :
    ((run P ops c).1.IsCapturing (run P ops c).2).1 = true ↔
      ∃ api, (run P ops c).1.renderDocAPI_ = some api ∧
        uint32_t (api.IsFrameCapturing (run P ops c).2.provider) = 1 :=
  isCapturing_eq_true_iff (run P ops c).1 (run P ops c).2

/-- C9, as stated, fails: bind the stub provider whose capturing query always
answers 0 and call `StartCapture()`.  The call takes its success path (the
start primitive is invoked, the outcome is "Manual capture started"), so a
manual capture has started and has not been ended; yet `IsCapturing()` is
false, because the provider reports none. -/
theorem isCapturing_manual_counterexample :
    (run (stubProcess 1 (some (constProvider 0))) [.Initialize (0, 0, 0), .StartCapture]
      (new, World.init ())).2.calls
      = [.GetAPIVersion, .IsFrameCapturing, .StartFrameCapture] ∧
    (run (stubProcess 1 (some (constProvider 0))) [.Initialize (0, 0, 0), .StartCapture]
      (new, World.init ())).1.GetLastCaptureInfo = "Manual capture started" ∧
    manualRecording (stubProcess 1 (some (constProvider 0)))
      [.Initialize (0, 0, 0), .StartCapture] (new, World.init ()) false = true ∧
    ((run (stubProcess 1 (some (constProvider 0))) [.Initialize (0, 0, 0), .StartCapture]
      (new, World.init ())).1.IsCapturing
      (run (stubProcess 1 (some (constProvider 0))) [.Initialize (0, 0, 0), .StartCapture]
        (new, World.init ())).2).1 = false ∧
    ¬ (((run (stubProcess 1 (some (constProvider 0))) [.Initialize (0, 0, 0), .StartCapture]
          (new, World.init ())).1.IsCapturing
          (run (stubProcess 1 (some (constProvider 0))) [.Initialize (0, 0, 0), .StartCapture]
            (new, World.init ())).2).1 = true ↔
        (manualRecording (stubProcess 1 (some (constProvider 0)))
            [.Initialize (0, 0, 0), .StartCapture] (new, World.init ()) false = true ∨
          uint32_t ((constProvider 0).IsFrameCapturing
            (run (stubProcess 1 (some (constProvider 0))) [.Initialize (0, 0, 0), .StartCapture]
              (new, World.init ())).2.provider) = 1)) := by
  decide

/-! ## Initialization -/

/-- C10 at its failing input: a fresh coordinator in a process where
`librenderdoc.so` is resident and its entry point stores a table but answers 0.
`Initialize()` returns false and logs "Failed to initialize API", yet the
stored table stays bound: `IsAvailable()` is true, and a following
`StartCapture()` is no no-op, it invokes the provider's start primitive. -/
theorem failed_initialize_stays_bound :
    ((new : RenderDocManager Bool).Initialize (stubProcess 0 (some (stubProvider 1))) (0, 0, 0)
      (World.init false)).1 = false ∧
    ((new : RenderDocManager Bool).Initialize (stubProcess 0 (some (stubProvider 1))) (0, 0, 0)
      (World.init false)).2.2.console
      = [(Severity.Info, "[RenderDoc] Initializing integration..."),
         (Severity.Error, "[RenderDoc] Failed to initialize API")] ∧
    ((new : RenderDocManager Bool).Initialize (stubProcess 0 (some (stubProvider 1))) (0, 0, 0)
      (World.init false)).2.1.IsAvailable = true ∧
    (run (stubProcess 0 (some (stubProvider 1))) [.Initialize (0, 0, 0), .StartCapture]
      (new, World.init false)).2.calls = [.IsFrameCapturing, .StartFrameCapture] ∧
    (run (stubProcess 0 (some (stubProvider 1))) [.Initialize (0, 0, 0), .StartCapture]
      (new, World.init false)).1.GetLastCaptureInfo = "Manual capture started" := by
  decide

/-! ## The version query -/

/-- What `GetVersion()` hands back on a bound coordinator: the provider's
answer in the current provider state, and one more `GetAPIVersion` call in the
trace. -/
theorem getVersion_bound (m : RenderDocManager σ) (api : RENDERDOC_API_1_1_2 σ) (w : World σ)
    (v : Int × Int × Int) (hb : m.renderDocAPI_ = some api) :
    m.GetVersion v w =
      ((int (api.GetAPIVersion w.provider v).2.1, int (api.GetAPIVersion w.provider v).2.2.1,
        int (api.GetAPIVersion w.provider v).2.2.2), w.call .GetAPIVersion) := by
  simp [GetVersion, hb]

/-- C11, as the code has it: on an unbound coordinator `GetVersion()` yields
(0, 0, 0) whatever the three variables held, and invokes nothing.  On a bound
coordinator it invokes the provider's version query, once per call, and yields
what that query answers in the provider state of that moment.  The coordinator
stores no version. -/
theorem getVersion_queries_provider (m : RenderDocManager σ) (w : World σ)
    (v : Int × Int × Int) :
    (m.renderDocAPI_ = none → m.GetVersion v w = ((0, 0, 0), w)) ∧
    (∀ api, m.renderDocAPI_ = some api →
      (m.GetVersion v w).1 =
        (int (api.GetAPIVersion w.provider v).2.1, int (api.GetAPIVersion w.provider v).2.2.1,
          int (api.GetAPIVersion w.provider v).2.2.2) ∧
      (m.GetVersion v w).2.calls = w.calls ++ [.GetAPIVersion] ∧
      (m.GetVersion v w).2.provider = w.provider) := by
  constructor
  · intro h
    simp [GetVersion, h]
  · intro api hb
    rw [getVersion_bound m api w v hb]
    simp [World.call]

/-- Unbound, `GetVersion()` turns (7, 8, 9) into (0, 0, 0); bound to the stub
provider it yields 1.1.2. -/
theorem getVersion_queries_provider_witness :
    (new : RenderDocManager Bool).GetVersion (7, 8, 9) (World.init false)
      = ((0, 0, 0), World.init false) ∧
    ((⟨some (stubProvider 1), ""⟩ : RenderDocManager Bool).GetVersion (7, 8, 9)
      (World.init false)).1 = (1, 1, 2) :=
  ⟨(getVersion_queries_provider new (World.init false) (7, 8, 9)).1 rfl,
   ((getVersion_queries_provider ⟨some (stubProvider 1), ""⟩ (World.init false) (7, 8, 9)).2
      (stubProvider 1) rfl).1.trans (by decide)⟩

/-- C11, as stated, fails on a bound coordinator: bind the stub provider that
reports its patch level.  Right after `Initialize()` the version is 1.1.2 and
that is what `Initialize()` logs; after a `StartCapture()`, `GetVersion()`
yields 1.1.3, the provider's answer of that moment, not the version of binding
time.  Each `GetVersion()` call invokes the provider's version query. -/
theorem getVersion_not_cached_counterexample :
    ((run (stubProcess 1 (some versionedProvider)) [.Initialize (0, 0, 0)]
        (new, World.init 2)).1.GetVersion (0, 0, 0)
      (run (stubProcess 1 (some versionedProvider)) [.Initialize (0, 0, 0)]
        (new, World.init 2)).2).1 = (1, 1, 2) ∧
    (Severity.Info, "[RenderDoc] Version: 1.1.2") ∈
      (run (stubProcess 1 (some versionedProvider)) [.Initialize (0, 0, 0)]
        (new, World.init 2)).2.console ∧
    ((run (stubProcess 1 (some versionedProvider)) [.Initialize (0, 0, 0), .StartCapture]
        (new, World.init 2)).1.GetVersion (0, 0, 0)
      (run (stubProcess 1 (some versionedProvider)) [.Initialize (0, 0, 0), .StartCapture]
        (new, World.init 2)).2).1 = (1, 1, 3) ∧
    (run (stubProcess 1 (some versionedProvider))
      [.Initialize (0, 0, 0), .GetVersion (0, 0, 0), .GetVersion (0, 0, 0)]
      (new, World.init 2)).2.calls = [.GetAPIVersion, .GetAPIVersion, .GetAPIVersion] := by
  decide

/-- C12, as the code has it: on a bound coordinator the first `GetVersion()`
leaves the provider state alone, so the provider's version query answers a
second call right after it as it answered the first.  The two calls return
the same triple for every table when both start from variables of the same
content, and for variables of any content when the provider's version query
fills the three outputs, that is, its answer does not depend on what they held
before. -/
theorem getVersion_twice_same (m : RenderDocManager σ) (api : RENDERDOC_API_1_1_2 σ)
    (w : World σ) (v : Int × Int × Int) (hb : m.renderDocAPI_ = some api) :
    (m.GetVersion v (m.GetVersion v w).2).1 = (m.GetVersion v w).1 ∧
    ((∀ s v₁ v₂, (api.GetAPIVersion s v₁).2 = (api.GetAPIVersion s v₂).2) →
      ∀ v' : Int × Int × Int, (m.GetVersion v' (m.GetVersion v w).2).1 = (m.GetVersion v w).1) := by
  constructor
  · simp [getVersion_bound m api _ v hb, World.call]
  · intro hfill v'
    simp [getVersion_bound m api _ _ hb, World.call, hfill w.provider v' v]

/-- With the stub provider, whose version query fills the outputs with 1.1.2:
a second `GetVersion()`, on variables holding (4, 5, 6), returns what the
first returned on variables holding (7, 8, 9). -/
theorem getVersion_twice_same_witness :
    ((⟨some (stubProvider 1), ""⟩ : RenderDocManager Bool).GetVersion (4, 5, 6)
      ((⟨some (stubProvider 1), ""⟩ : RenderDocManager Bool).GetVersion (7, 8, 9)
        (World.init false)).2).1
      = ((⟨some (stubProvider 1), ""⟩ : RenderDocManager Bool).GetVersion (7, 8, 9)
        (World.init false)).1 :=
  (getVersion_twice_same ⟨some (stubProvider 1), ""⟩ (stubProvider 1) (World.init false)
    (7, 8, 9) rfl).2 (fun _ _ _ => rfl) (4, 5, 6)

/-- C12, as stated, fails for a provider whose version query fills nothing:
bound to it, `GetVersion()` on variables holding (7, 8, 9) returns (7, 8, 9),
and a second `GetVersion()` right after it, on variables holding (4, 5, 6),
returns (4, 5, 6). -/
theorem getVersion_twice_counterexample :
    ((⟨some silentProvider, ""⟩ : RenderDocManager Unit).GetVersion (7, 8, 9)
      (World.init ())).1 = (7, 8, 9) ∧
    ((⟨some silentProvider, ""⟩ : RenderDocManager Unit).GetVersion (4, 5, 6)
      ((⟨some silentProvider, ""⟩ : RenderDocManager Unit).GetVersion (7, 8, 9)
        (World.init ())).2).1 = (4, 5, 6) ∧
    ((⟨some silentProvider, ""⟩ : RenderDocManager Unit).GetVersion (4, 5, 6)
      ((⟨some silentProvider, ""⟩ : RenderDocManager Unit).GetVersion (7, 8, 9)
        (World.init ())).2).1
      ≠ ((⟨some silentProvider, ""⟩ : RenderDocManager Unit).GetVersion (7, 8, 9)
        (World.init ())).1 := by
  decide

/-! ## Repeated calls, and the binding -/

/-- No call other than `Initialize()` touches the binding. -/
theorem step_keeps_binding (P : Process σ) (op : Op) (c : RenderDocManager σ × World σ)
    (hop : op.isInitialize = false) :
    (step P op c).1.renderDocAPI_ = c.1.renderDocAPI_ := by
  cases op with
  | Initialize u => simp [Op.isInitialize] at hop
  | StartCapture =>
    cases hb : c.1.renderDocAPI_ with
    | none => simp [step, StartCapture, hb]
    | some api =>
      by_cases hq : uint32_t (api.IsFrameCapturing c.2.provider) = 1 <;>
        simp [step, StartCapture, IsCapturing, hb, hq]
  | EndCapture =>
    cases hb : c.1.renderDocAPI_ with
    | none => simp [step, EndCapture, hb]
    | some api =>
      by_cases hq : uint32_t (api.IsFrameCapturing c.2.provider) = 1
      · by_cases hr : uint32_t (api.EndFrameCapture c.2.provider).1 = 1 <;>
          simp [step, EndCapture, IsCapturing, hb, hq, hr, Console.Write, World.call]
      · simp [step, EndCapture, IsCapturing, hb, hq]
  | IsCapturing => simp [step]
  | TriggerCapture =>
    cases hb : c.1.renderDocAPI_ with
    | none => simp [step, TriggerCapture, hb]
    | some api => simp [step, TriggerCapture, hb]
  | GetVersion v => simp [step]

/-- A sequence of calls without `Initialize()` leaves the binding as it was. -/
theorem run_keeps_binding (P : Process σ) (ops : List Op) :
    ∀ c : RenderDocManager σ × World σ, (∀ op ∈ ops, op.isInitialize = false) →
      (run P ops c).1.renderDocAPI_ = c.1.renderDocAPI_ := by
  induction ops with
  | nil => intro c _; rfl
  | cons op ops ih =>
    intro c h
    have h1 : op.isInitialize = false := h op (List.mem_cons_self op ops)
    have h2 : ∀ o ∈ ops, o.isInitialize = false := fun o ho => h o (List.mem_cons_of_mem op ho)
    have hrun : run P (op :: ops) c = run P ops (step P op c) := rfl
    rw [hrun, ih (step P op c) h2, step_keeps_binding P op c h1]

/-- C15: a sequence of `StartCapture()`, `EndCapture()`, `TriggerCapture()`,
`IsCapturing()` and `GetVersion()` calls, of any length and against any
provider, leaves `IsAvailable()` as it was: the bound table, or its absence,
is the same after the sequence as before. -/
theorem calls_keep_availability (P : Process σ) (ops : List Op)
    (c : RenderDocManager σ × World σ) (h : ∀ op ∈ ops, op.isInitialize = false) :
    (run P ops c).1.IsAvailable = c.1.IsAvailable ∧
    (run P ops c).1.renderDocAPI_ = c.1.renderDocAPI_ := by
  have hb := run_keeps_binding P ops c h
  exact ⟨by simp [IsAvailable, hb], hb⟩

/-- An unbound coordinator is still unbound after start, trigger, end, query
and version calls. -/
theorem calls_keep_availability_witness :
    (run (stubProcess 1 (some (stubProvider 1)))
      [.StartCapture, .TriggerCapture, .EndCapture, .IsCapturing, .GetVersion (7, 8, 9)]
      (new, World.init false)).1.IsAvailable = false :=
  (calls_keep_availability (stubProcess 1 (some (stubProvider 1)))
    [.StartCapture, .TriggerCapture, .EndCapture, .IsCapturing, .GetVersion (7, 8, 9)]
    (new, World.init false) (by decide)).1

/-! ## Discovery and binding -/

/-- The lookup writes to the trace of looked-up names only. -/
theorem loadRenderDocModule_world (P : Process σ) (w : World σ) :
    (LoadRenderDocModule P w).2.provider = w.provider ∧
    (LoadRenderDocModule P w).2.calls = w.calls ∧
    (LoadRenderDocModule P w).2.console = w.console := by
  cases hw : P.WIN32
  · cases h1 : P.resident "librenderdoc.so" <;> simp [LoadRenderDocModule, hw, h1]
  · cases h1 : P.resident "renderdoc.dll" <;> simp [LoadRenderDocModule, hw, h1]

/-- C18: `LoadRenderDocModule()` consults the residency lookup only.  With the
first candidate name of the platform ("renderdoc.dll" on Windows, else
"librenderdoc.so") resident it returns that handle after looking up this one
name; otherwise it looks up the second name ("renderdoc_app.dll", else
"librenderdoc.so.1") as well and returns its handle, or null when that is not
resident either.  No other name is looked up, and nothing else changes. -/
theorem loadRenderDocModule_order (P : Process σ) (w : World σ) :
    candidateNames P.WIN32
      = (if P.WIN32 then ["renderdoc.dll", "renderdoc_app.dll"]
         else ["librenderdoc.so", "librenderdoc.so.1"]) ∧
    (∀ first second, candidateNames P.WIN32 = [first, second] →
      (∀ handle, P.resident first = some handle →
        (LoadRenderDocModule P w).1 = some handle ∧
        (LoadRenderDocModule P w).2.lookups = w.lookups ++ [first]) ∧
      (P.resident first = none →
        (LoadRenderDocModule P w).1 = P.resident second ∧
        (LoadRenderDocModule P w).2.lookups = w.lookups ++ [first, second])) ∧
    (LoadRenderDocModule P w).2.provider = w.provider ∧
    (LoadRenderDocModule P w).2.calls = w.calls ∧
    (LoadRenderDocModule P w).2.console = w.console := by
  refine ⟨rfl, ?_, ?_, ?_, ?_⟩
  · intro first second hc
    cases hw : P.WIN32 <;> simp [candidateNames, hw] at hc <;> obtain ⟨rfl, rfl⟩ := hc
    · constructor
      · intro handle h1
        simp [LoadRenderDocModule, hw, h1]
      · intro h1
        simp [LoadRenderDocModule, hw, h1]
    · constructor
      · intro handle h1
        simp [LoadRenderDocModule, hw, h1]
      · intro h1
        simp [LoadRenderDocModule, hw, h1]
  · exact (loadRenderDocModule_world P w).1
  · exact (loadRenderDocModule_world P w).2.1
  · exact (loadRenderDocModule_world P w).2.2

/-- In the stub process, where only "librenderdoc.so" is resident, the handle
returned is 1 and one name has been looked up. -/
theorem loadRenderDocModule_order_witness :
    (LoadRenderDocModule (stubProcess 1 (some (stubProvider 1))) (World.init false)).1 = some 1 ∧
    (LoadRenderDocModule (stubProcess 1 (some (stubProvider 1))) (World.init false)).2.lookups
      = ["librenderdoc.so"] :=
  ((loadRenderDocModule_order (stubProcess 1 (some (stubProvider 1))) (World.init false)).2.1
    "librenderdoc.so" "librenderdoc.so.1" rfl).1 1 (by decide)

/-- C21: `IsCapturing()` is true exactly when a table is bound and its
capturing query answers 1; for every other answer, other non-zero answers
included, it is false.  `StartCapture()` and `EndCapture()` branch on that very
test: with `IsCapturing()` true `StartCapture()` takes its "Capture already in
progress" branch and `EndCapture()` invokes the end primitive; with
`IsCapturing()` false `StartCapture()` invokes the start primitive and
`EndCapture()` takes its "No active capture to end" branch. -/
theorem isCapturing_tests_for_one (m : RenderDocManager σ) (w : World σ) :
    ((m.IsCapturing w).1 = true ↔
      ∃ api, m.renderDocAPI_ = some api ∧ uint32_t (api.IsFrameCapturing w.provider) = 1) ∧
    (∀ api, m.renderDocAPI_ = some api →
      (uint32_t (api.IsFrameCapturing w.provider) ≠ 1 → (m.IsCapturing w).1 = false) ∧
      ((m.IsCapturing w).1 = true →
        m.StartCapture w =
          (m, Console.Write .Warning ["[RenderDoc] Capture already in progress"]
                (m.IsCapturing w).2) ∧
        (m.EndCapture w).2.calls = w.calls ++ [.IsFrameCapturing, .EndFrameCapture]) ∧
      ((m.IsCapturing w).1 = false →
        m.EndCapture w =
          (m, Console.Write .Warning ["[RenderDoc] No active capture to end"]
                (m.IsCapturing w).2) ∧
        (m.StartCapture w).2.calls = w.calls ++ [.IsFrameCapturing, .StartFrameCapture] ∧
        (m.StartCapture w).1.GetLastCaptureInfo = "Manual capture started")) := by
  refine ⟨isCapturing_eq_true_iff m w, ?_⟩
  intro api hb
  by_cases hq : uint32_t (api.IsFrameCapturing w.provider) = 1
  · by_cases hr : uint32_t (api.EndFrameCapture w.provider).1 = 1 <;>
      simp [IsCapturing, StartCapture, EndCapture, hb, hq, hr, Console.Write, World.call]
  · simp [IsCapturing, StartCapture, EndCapture, GetLastCaptureInfo, hb, hq, Console.Write,
      World.call]

/-- With a stub whose capturing query always answers 2: `IsCapturing()` is
false, `StartCapture()` invokes the start primitive, and `EndCapture()` ends
nothing. -/
theorem isCapturing_tests_for_one_witness :
    uint32_t ((constProvider 2).IsFrameCapturing ()) = 2 ∧
    ((⟨some (constProvider 2), ""⟩ : RenderDocManager Unit).IsCapturing (World.init ())).1
      = false ∧
    ((⟨some (constProvider 2), ""⟩ : RenderDocManager Unit).StartCapture (World.init ())).2.calls
      = [.IsFrameCapturing, .StartFrameCapture] ∧
    ((⟨some (constProvider 2), ""⟩ : RenderDocManager Unit).EndCapture (World.init ())).2.calls
      = [.IsFrameCapturing] :=
  ⟨by decide,
   ((isCapturing_tests_for_one ⟨some (constProvider 2), ""⟩ (World.init ())).2
      (constProvider 2) rfl).1 (by decide),
   (((isCapturing_tests_for_one ⟨some (constProvider 2), ""⟩ (World.init ())).2
      (constProvider 2) rfl).2.2 (by decide)).2.1,
   by decide⟩

/-! ## The last outcome -/

/-- `Initialize()` leaves the last outcome alone; the binding is either as it
was or what the resolved entry point stored. -/
theorem initialize_effect (P : Process σ) (uninit : Int × Int × Int)
    (m : RenderDocManager σ) (w : World σ) :
    (m.Initialize P uninit w).2.1.lastCaptureInfo_ = m.lastCaptureInfo_ ∧
    ((m.Initialize P uninit w).2.1.renderDocAPI_ = m.renderDocAPI_ ∨
      ∃ module entry, P.symbol module "RENDERDOC_GetAPI" = some entry ∧
        (m.Initialize P uninit w).2.1.renderDocAPI_ = (entry 10102 m.renderDocAPI_).2) := by
  cases hl : (LoadRenderDocModule P
      (Console.Write .Info ["[RenderDoc] Initializing integration..."] w)).1 with
  | none => simp [Initialize, hl]
  | some module =>
    cases hs : P.symbol module "RENDERDOC_GetAPI" with
    | none => simp [Initialize, hl, hs]
    | some entry =>
      have key : (m.Initialize P uninit w).2.1.lastCaptureInfo_ = m.lastCaptureInfo_ ∧
          (m.Initialize P uninit w).2.1.renderDocAPI_ = (entry 10102 m.renderDocAPI_).2 := by
        cases ht : (entry 10102 m.renderDocAPI_).2 with
        | none => simp [Initialize, hl, hs, eRENDERDOC_API_Version_1_1_2, ht]
        | some table =>
          by_cases hr : int (entry 10102 m.renderDocAPI_).1 = 1 <;>
            simp [Initialize, hl, hs, eRENDERDOC_API_Version_1_1_2, ht, hr]
      exact ⟨key.1, Or.inr ⟨module, entry, hs, key.2⟩⟩

/-- A call other than `Initialize()` either leaves the last outcome alone or,
on a bound coordinator, assigns one of the four outcome strings. -/
theorem step_outcome (P : Process σ) (op : Op) (c : RenderDocManager σ × World σ)
    (hop : op.isInitialize = false) :
    (step P op c).1.lastCaptureInfo_ = c.1.lastCaptureInfo_ ∨
    (c.1.renderDocAPI_.isSome = true ∧
      (step P op c).1.lastCaptureInfo_ ∈
        ["Manual capture started", "Manual capture completed successfully",
         "Manual capture failed", "Single frame capture triggered"]) := by
  cases op with
  | Initialize u => simp [Op.isInitialize] at hop
  | StartCapture =>
    cases hb : c.1.renderDocAPI_ with
    | none => simp [step, StartCapture, hb]
    | some api =>
      by_cases hq : uint32_t (api.IsFrameCapturing c.2.provider) = 1 <;>
        simp [step, StartCapture, IsCapturing, hb, hq]
  | EndCapture =>
    cases hb : c.1.renderDocAPI_ with
    | none => simp [step, EndCapture, hb]
    | some api =>
      by_cases hq : uint32_t (api.IsFrameCapturing c.2.provider) = 1
      · by_cases hr : uint32_t (api.EndFrameCapture c.2.provider).1 = 1 <;>
          simp [step, EndCapture, IsCapturing, hb, hq, hr, Console.Write, World.call]
      · simp [step, EndCapture, IsCapturing, hb, hq]
  | IsCapturing => simp [step]
  | TriggerCapture =>
    cases hb : c.1.renderDocAPI_ with
    | none => simp [step, TriggerCapture, hb]
    | some api => simp [step, TriggerCapture, hb]
  | GetVersion v => simp [step]

/-- Every call keeps the last outcome among the five strings. -/
theorem step_outcome_mem (P : Process σ) (op : Op) (c : RenderDocManager σ × World σ)
    (h : c.1.lastCaptureInfo_ ∈ outcomes) : (step P op c).1.lastCaptureInfo_ ∈ outcomes := by
  cases hop : op.isInitialize
  · rcases step_outcome P op c hop with hsame | ⟨_, hnew⟩
    · rw [hsame]; exact h
    · simp only [outcomes, List.mem_cons] at hnew ⊢
      exact Or.inr hnew
  · cases op with
    | Initialize u =>
      have := (initialize_effect P u c.1 c.2).1
      simp only [step]
      rw [this]; exact h
    | _ => simp [Op.isInitialize] at hop

/-- In a process whose entry point never replaces a table by null, every call
keeps "a non-empty last outcome means bound". -/
theorem step_outcome_bound (P : Process σ) (op : Op) (c : RenderDocManager σ × World σ)
    (hP : ∀ module entry table, P.symbol module "RENDERDOC_GetAPI" = some entry →
      (entry 10102 (some table)).2 ≠ none)
    (h : c.1.lastCaptureInfo_ ≠ "" → c.1.renderDocAPI_.isSome = true) :
    (step P op c).1.lastCaptureInfo_ ≠ "" → (step P op c).1.renderDocAPI_.isSome = true := by
  cases hop : op.isInitialize
  · rw [step_keeps_binding P op c hop]
    rcases step_outcome P op c hop with hsame | ⟨hb, _⟩
    · rw [hsame]; exact h
    · exact fun _ => hb
  · cases op with
    | Initialize u =>
      obtain ⟨hinfo, hbind⟩ := initialize_effect P u c.1 c.2
      simp only [step]
      rw [hinfo]
      intro hne
      have hb := h hne
      rcases hbind with hsame | ⟨module, entry, hs, hnew⟩
      · rw [hsame]; exact hb
      · rw [hnew]
        cases hc : c.1.renderDocAPI_ with
        | none => simp [hc] at hb
        | some table =>
          cases hr : (entry 10102 (some table)).2 with
          | none => exact absurd hr (hP module entry table hs)
          | some t => rfl
    | _ => simp [Op.isInitialize] at hop

/-- A call that is no `Initialize()` leaving a bound coordinator unbound keeps
"a non-empty last outcome means bound". -/
theorem step_outcome_bound_of_keeps (P : Process σ) (op : Op)
    (c : RenderDocManager σ × World σ)
    (hk : (op.isInitialize && c.1.IsAvailable) = true → (step P op c).1.IsAvailable = true)
    (h : c.1.lastCaptureInfo_ ≠ "" → c.1.renderDocAPI_.isSome = true) :
    (step P op c).1.lastCaptureInfo_ ≠ "" → (step P op c).1.renderDocAPI_.isSome = true := by
  cases hop : op.isInitialize
  · rw [step_keeps_binding P op c hop]
    rcases step_outcome P op c hop with hsame | ⟨hb, _⟩
    · rw [hsame]; exact h
    · exact fun _ => hb
  · cases op with
    | Initialize u =>
      have hinfo := (initialize_effect P u c.1 c.2).1
      intro hne
      have hne' : c.1.lastCaptureInfo_ ≠ "" := by
        simp only [step] at hne
        rw [hinfo] at hne
        exact hne
      have hb := h hne'
      have := hk (by simp [Op.isInitialize, IsAvailable, hb])
      simpa [IsAvailable] using this
    | _ => simp [Op.isInitialize] at hop

/-- In a process whose entry point never stores null over a table, no
`Initialize()` of any sequence leaves a bound coordinator unbound. -/
theorem initializeKeepsBinding_of_entry (P : Process σ)
    (hP : ∀ module entry table, P.symbol module "RENDERDOC_GetAPI" = some entry →
      (entry 10102 (some table)).2 ≠ none) (ops : List Op) :
    ∀ c : RenderDocManager σ × World σ, initializeKeepsBinding P ops c = true := by
  induction ops with
  | nil => intro c; rfl
  | cons op ops ih =>
    intro c
    have hstep : (!(op.isInitialize && c.1.IsAvailable) || (step P op c).1.IsAvailable)
        = true := by
      cases op with
      | Initialize u =>
        cases hc : c.1.renderDocAPI_ with
        | none => simp [IsAvailable, hc]
        | some table =>
          obtain ⟨_, hbind⟩ := initialize_effect P u c.1 c.2
          have hb : (step P (.Initialize u) c).1.renderDocAPI_.isSome = true := by
            simp only [step]
            rcases hbind with hsame | ⟨module, entry, hs, hnew⟩
            · rw [hsame, hc]; rfl
            · rw [hnew, hc]
              cases hr : (entry 10102 (some table)).2 with
              | none => exact absurd hr (hP module entry table hs)
              | some t => rfl
          simp [IsAvailable, hb]
      | _ => simp [Op.isInitialize]
    simp only [initializeKeepsBinding, hstep, ih (step P op c), Bool.and_self]

/-- C22, as the code has it: starting from a freshly constructed coordinator,
after every finite sequence of `Initialize()`, `StartCapture()`,
`EndCapture()`, `TriggerCapture()`, `IsCapturing()` and `GetVersion()` calls,
in every process and against every provider, `GetLastCaptureInfo()` is one of
the five strings "", "Manual capture started", "Manual capture completed
successfully", "Manual capture failed", "Single frame capture triggered".
When no `Initialize()` of the sequence leaves unbound a coordinator that was
bound when it was called, a non-empty last outcome means that the coordinator
is bound.  That proviso holds of every sequence in a process whose entry
point never stores null over a table. -/
theorem last_outcome_invariant (P : Process σ) (ops : List Op) (w : World σ) :
    (run P ops (new, w)).1.GetLastCaptureInfo ∈
      ["", "Manual capture started", "Manual capture completed successfully",
       "Manual capture failed", "Single frame capture triggered"] ∧
    (initializeKeepsBinding P ops (new, w) = true →
      (run P ops (new, w)).1.GetLastCaptureInfo ≠ "" →
      (run P ops (new, w)).1.IsAvailable = true) ∧
    ((∀ module entry table, P.symbol module "RENDERDOC_GetAPI" = some entry →
        (entry 10102 (some table)).2 ≠ none) →
      initializeKeepsBinding P ops (new, w) = true) := by
  have hmem : ∀ (l : List Op) (c : RenderDocManager σ × World σ),
      c.1.lastCaptureInfo_ ∈ outcomes → (run P l c).1.lastCaptureInfo_ ∈ outcomes := by
    intro l
    induction l with
    | nil => intro c h; exact h
    | cons op l ih => intro c h; exact ih (step P op c) (step_outcome_mem P op c h)
  have hbound : ∀ (l : List Op) (c : RenderDocManager σ × World σ),
      initializeKeepsBinding P l c = true →
      (c.1.lastCaptureInfo_ ≠ "" → c.1.renderDocAPI_.isSome = true) →
      (run P l c).1.lastCaptureInfo_ ≠ "" → (run P l c).1.renderDocAPI_.isSome = true := by
    intro l
    induction l with
    | nil => intro c _ h; exact h
    | cons op l ih =>
      intro c hk h
      simp only [initializeKeepsBinding, Bool.and_eq_true, Bool.or_eq_true,
        Bool.not_eq_true'] at hk
      refine ih (step P op c) hk.2 (step_outcome_bound_of_keeps P op c ?_ h)
      intro hinit
      rcases hk.1 with hno | hyes
      · rw [hinit] at hno; cases hno
      · exact hyes
  exact ⟨hmem ops (new, w) (by simp [outcomes, new]),
    fun hk => hbound ops (new, w) hk (by simp [new]),
    fun hP => initializeKeepsBinding_of_entry P hP ops (new, w)⟩

/-- In the process whose entry point hands out its table once, bind and
trigger: no `Initialize()` of this sequence unbinds, the last outcome is
"Single frame capture triggered", one of the five, and the coordinator is
bound.  Each of the other four strings is reached as well: "" without any
call, "Manual capture started" by a start, "Manual capture completed
successfully" and "Manual capture failed" by an end whose primitive answers 1
and 0. -/
theorem last_outcome_invariant_witness :
    initializeKeepsBinding (handOutOnceProcess (stubProvider 1))
      [.Initialize (0, 0, 0), .TriggerCapture] (new, World.init false) = true ∧
    (run (handOutOnceProcess (stubProvider 1)) [.Initialize (0, 0, 0), .TriggerCapture]
      (new, World.init false)).1.GetLastCaptureInfo = "Single frame capture triggered" ∧
    (run (handOutOnceProcess (stubProvider 1)) [.Initialize (0, 0, 0), .TriggerCapture]
      (new, World.init false)).1.IsAvailable = true ∧
    (run (stubProcess 1 (some (stubProvider 1))) []
      (new, World.init false)).1.GetLastCaptureInfo = "" ∧
    (run (stubProcess 1 (some (stubProvider 1))) [.Initialize (0, 0, 0), .StartCapture]
      (new, World.init false)).1.GetLastCaptureInfo = "Manual capture started" ∧
    (run (stubProcess 1 (some (stubProvider 1)))
      [.Initialize (0, 0, 0), .StartCapture, .EndCapture]
      (new, World.init false)).1.GetLastCaptureInfo
      = "Manual capture completed successfully" ∧
    (run (stubProcess 1 (some (stubProvider 0)))
      [.Initialize (0, 0, 0), .StartCapture, .EndCapture]
      (new, World.init false)).1.GetLastCaptureInfo = "Manual capture failed" :=
  ⟨by decide, by decide,
   (last_outcome_invariant (handOutOnceProcess (stubProvider 1))
      [.Initialize (0, 0, 0), .TriggerCapture] (World.init false)).2.1
      (by decide) (by decide),
   by decide, by decide, by decide, by decide⟩

/-- C22, as stated, fails in its last part: in a process whose entry point
hands out its table once, bind with `Initialize()`, call `TriggerCapture()`,
and call `Initialize()` again.  The second `Initialize()` returns false and the
entry point has stored null: the coordinator is unbound, and the last outcome
is still "Single frame capture triggered". -/
theorem outcome_without_binding_counterexample :
    (run (handOutOnceProcess (stubProvider 1)) [.Initialize (0, 0, 0)]
      (new, World.init false)).1.IsAvailable = true ∧
    ((run (handOutOnceProcess (stubProvider 1)) [.Initialize (0, 0, 0), .TriggerCapture]
        (new, World.init false)).1.Initialize (handOutOnceProcess (stubProvider 1)) (0, 0, 0)
      (run (handOutOnceProcess (stubProvider 1)) [.Initialize (0, 0, 0), .TriggerCapture]
        (new, World.init false)).2).1 = false ∧
    (run (handOutOnceProcess (stubProvider 1))
      [.Initialize (0, 0, 0), .TriggerCapture, .Initialize (0, 0, 0)]
      (new, World.init false)).1.IsAvailable = false ∧
    (run (handOutOnceProcess (stubProvider 1))
      [.Initialize (0, 0, 0), .TriggerCapture, .Initialize (0, 0, 0)]
      (new, World.init false)).1.GetLastCaptureInfo = "Single frame capture triggered" ∧
    (run (handOutOnceProcess (stubProvider 1))
      [.Initialize (0, 0, 0), .TriggerCapture, .Initialize (0, 0, 0)]
      (new, World.init false)).1.GetLastCaptureInfo ≠ "" := by
  decide

end Utilities

namespace UserInterface

/-! ## Construction -/

/-- The callback lets a list of results pass exactly when all of them are
`VK_SUCCESS`. -/
theorem reportResults_eq_ok_iff (ToString : Int → String) (results : List Int) :
    reportResults ToString results = .ok () ↔ ∀ err ∈ results, err = VK_SUCCESS := by
  induction results with
  | nil => simp [reportResults]
  | cons err rest ih =>
    by_cases h : err = VK_SUCCESS
    · simp [reportResults, CheckVulkanResultCallback, h, ih]
    · simp [reportResults, CheckVulkanResultCallback, h]

/-- When some result is not `VK_SUCCESS`, reporting the list throws. -/
theorem reportResults_error (ToString : Int → String) (results : List Int)
    (h : ∃ err ∈ results, err ≠ VK_SUCCESS) :
    ∃ e, reportResults ToString results = .error e := by
  cases hr : reportResults ToString results with
  | error e => exact ⟨e, rfl⟩
  | ok u =>
    cases u
    obtain ⟨err, hmem, hne⟩ := h
    exact absurd ((reportResults_eq_ok_iff ToString results).1 hr err hmem) hne

/-- C16: construction throws if and only if a required presentation resource
is missing: the GLFW adapter fails to initialise, or the Vulkan adapter fails
to initialise, or the font file does not load, or the font texture is not
created, or the backend reports a Vulkan result other than `VK_SUCCESS` to the
callback; when none of these happens construction returns. -/
theorem construction_fails_iff (p : Presentation) :
    ((∃ e, UserInterface.new p = .error e) ↔
      (p.ImGui_ImplGlfw_InitForVulkan = false ∨
       p.ImGui_ImplVulkan_Init.2 = false ∨
       p.AddFontFromFileTTF = false ∨
       p.ImGui_ImplVulkan_CreateFontsTexture.2 = false ∨
       (∃ err ∈ p.ImGui_ImplVulkan_Init.1, err ≠ VK_SUCCESS) ∨
       (∃ err ∈ p.ImGui_ImplVulkan_CreateFontsTexture.1, err ≠ VK_SUCCESS))) ∧
    (UserInterface.new p = .ok () ↔
      (p.ImGui_ImplGlfw_InitForVulkan = true ∧
       p.ImGui_ImplVulkan_Init.2 = true ∧
       p.AddFontFromFileTTF = true ∧
       p.ImGui_ImplVulkan_CreateFontsTexture.2 = true ∧
       (∀ err ∈ p.ImGui_ImplVulkan_Init.1, err = VK_SUCCESS) ∧
       (∀ err ∈ p.ImGui_ImplVulkan_CreateFontsTexture.1, err = VK_SUCCESS))) := by
  have hok : UserInterface.new p = .ok () ↔
      (p.ImGui_ImplGlfw_InitForVulkan = true ∧
       p.ImGui_ImplVulkan_Init.2 = true ∧
       p.AddFontFromFileTTF = true ∧
       p.ImGui_ImplVulkan_CreateFontsTexture.2 = true ∧
       (∀ err ∈ p.ImGui_ImplVulkan_Init.1, err = VK_SUCCESS) ∧
       (∀ err ∈ p.ImGui_ImplVulkan_CreateFontsTexture.1, err = VK_SUCCESS)) := by
    rw [← reportResults_eq_ok_iff p.ToString, ← reportResults_eq_ok_iff p.ToString]
    unfold UserInterface.new
    cases p.ImGui_ImplGlfw_InitForVulkan <;> cases p.ImGui_ImplVulkan_Init.2 <;>
      cases p.AddFontFromFileTTF <;> cases p.ImGui_ImplVulkan_CreateFontsTexture.2 <;>
      cases reportResults p.ToString p.ImGui_ImplVulkan_Init.1 <;>
      cases reportResults p.ToString p.ImGui_ImplVulkan_CreateFontsTexture.1 <;>
      simp
  refine ⟨?_, hok⟩
  constructor
  · rintro ⟨e, he⟩
    by_contra hnone
    simp only [not_or, Bool.not_eq_false, not_exists, not_and, not_not] at hnone
    have := hok.2 ⟨hnone.1, hnone.2.1, hnone.2.2.1, hnone.2.2.2.1, hnone.2.2.2.2.1,
      hnone.2.2.2.2.2⟩
    rw [this] at he
    cases he
  · intro h
    cases hn : UserInterface.new p with
    | error e => exact ⟨e, rfl⟩
    | ok u =>
      cases u
      have hall := hok.1 hn
      rcases h with h | h | h | h | ⟨err, hm, hne⟩ | ⟨err, hm, hne⟩
      · simp [hall.1] at h
      · simp [hall.2.1] at h
      · simp [hall.2.2.1] at h
      · simp [hall.2.2.2.1] at h
      · exact absurd (hall.2.2.2.2.1 err hm) hne
      · exact absurd (hall.2.2.2.2.2 err hm) hne

/-- With every adapter and the font in place construction returns; with the
font file missing it throws "failed to load ImGui font". -/
theorem construction_fails_iff_witness :
    UserInterface.new ⟨true, ([0, 0], true), true, ([0], true), fun _ => ""⟩ = .ok () ∧
    UserInterface.new ⟨true, ([0, 0], true), false, ([0], true), fun _ => ""⟩
      = .error "failed to load ImGui font" :=
  ⟨(construction_fails_iff ⟨true, ([0, 0], true), true, ([0], true), fun _ => ""⟩).2.2
      (by decide),
   rfl⟩

/-! ## The configuration panel -/

/-- `ImClamp` lands in the range it is given, when that range is not empty. -/
theorem imClamp_mem {α : Type} [LinearOrder α] (v mn mx : α) (h : mn ≤ mx) :
    mn ≤ ImGui.ImClamp v mn mx ∧ ImGui.ImClamp v mn mx ≤ mx := by
  unfold ImGui.ImClamp
  split_ifs with h1 h2
  · exact ⟨le_refl _, h⟩
  · exact ⟨h, le_refl _⟩
  · exact ⟨not_lt.1 h1, not_lt.1 h2⟩

/-- The settings `DrawSettings` leaves when the panel is shown and filled. -/
theorem drawSettings_shown (lo hi : ℚ) (io : ImGui.Input) (s : UserSettings)
    (frame : List ImGui.Item) (hshow : s.ShowSettings = true)
    (hvis : io.Begin "🎮 Vulkan Gallery Renderer - Control Panel" = true) :
    (DrawSettings lo hi io s frame).1.NumberOfSamples
      = (ImGui.SliderScalar io "##Samples" s.NumberOfSamples 1 128 []).1 ∧
    (DrawSettings lo hi io s frame).1.NumberOfBounces
      = (ImGui.SliderScalar io "##Bounces" s.NumberOfBounces 1 32 []).1 ∧
    (DrawSettings lo hi io s frame).1.FieldOfView
      = (ImGui.SliderFloat io "Field of View" s.FieldOfView lo hi []).1 ∧
    (DrawSettings lo hi io s frame).1.Aperture
      = (ImGui.SliderFloat io "Aperture (DoF)" s.Aperture 0 1 []).1 ∧
    (DrawSettings lo hi io s frame).1.FocusDistance
      = (ImGui.SliderFloat io "Focus Distance" s.FocusDistance (1 / 10) 20 []).1 ∧
    (DrawSettings lo hi io s frame).1.HeatmapScale
      = (ImGui.SliderFloat io "Heatmap Scale" s.HeatmapScale (1 / 10) 10 []).1 := by
  simp [DrawSettings, hshow, hvis, ImGui.Begin, ImGui.SliderScalar, ImGui.SliderFloat,
    ImGui.Checkbox, ImGui.Combo, ImGui.Text, ImGui.BulletText]

/-- C14, on the write path of the specification: when the panel is shown and
filled, every value offered to the slider of a numeric field is stored within
the range declared for that field: samples per pixel in [1, 128], bounces in
[1, 32], field of view in [FieldOfViewMinValue, FieldOfViewMaxValue], aperture
in [0, 1], focus distance in [0.1, 20], heatmap scale in [0.1, 10].  Offering
500 samples per pixel stores 128, and offering an aperture of -1 stores 0.
Settings that are within their ranges stay within them in every frame. -/
theorem panel_write_is_clamped (lo hi : ℚ) (io : ImGui.Input) (s : UserSettings)
    (frame : List ImGui.Item) (hfov : lo ≤ hi) :
    (s.ShowSettings = true →
      io.Begin "🎮 Vulkan Gallery Renderer - Control Panel" = true →
      (∀ x, io.SliderScalar "##Samples" = some x →
        1 ≤ (DrawSettings lo hi io s frame).1.NumberOfSamples ∧
        (DrawSettings lo hi io s frame).1.NumberOfSamples ≤ 128) ∧
      (∀ x, io.SliderScalar "##Bounces" = some x →
        1 ≤ (DrawSettings lo hi io s frame).1.NumberOfBounces ∧
        (DrawSettings lo hi io s frame).1.NumberOfBounces ≤ 32) ∧
      (∀ x, io.SliderFloat "Field of View" = some x →
        lo ≤ (DrawSettings lo hi io s frame).1.FieldOfView ∧
        (DrawSettings lo hi io s frame).1.FieldOfView ≤ hi) ∧
      (∀ x, io.SliderFloat "Aperture (DoF)" = some x →
        0 ≤ (DrawSettings lo hi io s frame).1.Aperture ∧
        (DrawSettings lo hi io s frame).1.Aperture ≤ 1) ∧
      (∀ x, io.SliderFloat "Focus Distance" = some x →
        1 / 10 ≤ (DrawSettings lo hi io s frame).1.FocusDistance ∧
        (DrawSettings lo hi io s frame).1.FocusDistance ≤ 20) ∧
      (∀ x, io.SliderFloat "Heatmap Scale" = some x →
        1 / 10 ≤ (DrawSettings lo hi io s frame).1.HeatmapScale ∧
        (DrawSettings lo hi io s frame).1.HeatmapScale ≤ 10) ∧
      (io.SliderScalar "##Samples" = some 500 →
        (DrawSettings lo hi io s frame).1.NumberOfSamples = 128) ∧
      (io.SliderFloat "Aperture (DoF)" = some (-1) →
        (DrawSettings lo hi io s frame).1.Aperture = 0)) ∧
    (inRange lo hi s → inRange lo hi (DrawSettings lo hi io s frame).1) := by
  constructor
  · intro hshow hvis
    obtain ⟨h1, h2, h3, h4, h5, h6⟩ := drawSettings_shown lo hi io s frame hshow hvis
    rw [h1, h2, h3, h4, h5, h6]
    refine ⟨?_, ?_, ?_, ?_, ?_, ?_, ?_, ?_⟩
    · intro x hx
      simpa [ImGui.SliderScalar, hx] using imClamp_mem x 1 128 (by norm_num)
    · intro x hx
      simpa [ImGui.SliderScalar, hx] using imClamp_mem x 1 32 (by norm_num)
    · intro x hx
      simpa [ImGui.SliderFloat, hx] using imClamp_mem x lo hi hfov
    · intro x hx
      simpa [ImGui.SliderFloat, hx] using imClamp_mem x (0 : ℚ) 1 (by norm_num)
    · intro x hx
      simpa [ImGui.SliderFloat, hx] using imClamp_mem x (1 / 10 : ℚ) 20 (by norm_num)
    · intro x hx
      simpa [ImGui.SliderFloat, hx] using imClamp_mem x (1 / 10 : ℚ) 10 (by norm_num)
    · intro hx
      simp [ImGui.SliderScalar, hx, ImGui.ImClamp]
    · intro hx
      simp [ImGui.SliderFloat, hx, ImGui.ImClamp]
  · intro hin
    by_cases hshow : s.ShowSettings = true
    · by_cases hvis : io.Begin "🎮 Vulkan Gallery Renderer - Control Panel" = true
      · obtain ⟨h1, h2, h3, h4, h5, h6⟩ := drawSettings_shown lo hi io s frame hshow hvis
        obtain ⟨i1, i2, i3, i4, i5, i6⟩ := hin
        unfold inRange
        rw [h1, h2, h3, h4, h5, h6]
        refine ⟨?_, ?_, ?_, ?_, ?_, ?_⟩
        · cases hx : io.SliderScalar "##Samples" with
          | none => simpa [ImGui.SliderScalar, hx] using i1
          | some x => simpa [ImGui.SliderScalar, hx] using imClamp_mem x 1 128 (by norm_num)
        · cases hx : io.SliderScalar "##Bounces" with
          | none => simpa [ImGui.SliderScalar, hx] using i2
          | some x => simpa [ImGui.SliderScalar, hx] using imClamp_mem x 1 32 (by norm_num)
        · cases hx : io.SliderFloat "Field of View" with
          | none => simpa [ImGui.SliderFloat, hx] using i3
          | some x => simpa [ImGui.SliderFloat, hx] using imClamp_mem x lo hi hfov
        · cases hx : io.SliderFloat "Aperture (DoF)" with
          | none => simpa [ImGui.SliderFloat, hx] using i4
          | some x => simpa [ImGui.SliderFloat, hx] using imClamp_mem x (0 : ℚ) 1 (by norm_num)
        · cases hx : io.SliderFloat "Focus Distance" with
          | none => simpa [ImGui.SliderFloat, hx] using i5
          | some x =>
            simpa [ImGui.SliderFloat, hx] using imClamp_mem x (1 / 10 : ℚ) 20 (by norm_num)
        · cases hx : io.SliderFloat "Heatmap Scale" with
          | none => simpa [ImGui.SliderFloat, hx] using i6
          | some x =>
            simpa [ImGui.SliderFloat, hx] using imClamp_mem x (1 / 10 : ℚ) 10 (by norm_num)
      · have hs : (DrawSettings lo hi io s frame).1
            = { s with ShowSettings :=
                  if io.Closed "🎮 Vulkan Gallery Renderer - Control Panel" then false
                  else s.ShowSettings } := by
          simp [DrawSettings, hshow, hvis, ImGui.Begin]
        rw [hs]
        exact hin
    · have hs : (DrawSettings lo hi io s frame).1 = s := by
        simp [DrawSettings, hshow]
      rw [hs]
      exact hin

/-- With a field of view range of [10, 90] and the panel shown: offering 500
samples per pixel stores 128, offering an aperture of -1 stores 0, and the
settings are within their ranges afterwards. -/
theorem panel_write_is_clamped_witness :
    (10 : ℚ) ≤ 90 ∧
    (DrawSettings 10 90 offeringInput (sampleSettings true true) []).1.NumberOfSamples = 128 ∧
    (DrawSettings 10 90 offeringInput (sampleSettings true true) []).1.Aperture = 0 ∧
    inRange 10 90 (DrawSettings 10 90 offeringInput (sampleSettings true true) []).1 :=
  ⟨by norm_num,
   ((panel_write_is_clamped 10 90 offeringInput (sampleSettings true true) []
      (by norm_num)).1 rfl rfl).2.2.2.2.2.2.1 rfl,
   ((panel_write_is_clamped 10 90 offeringInput (sampleSettings true true) []
      (by norm_num)).1 rfl rfl).2.2.2.2.2.2.2 rfl,
   (panel_write_is_clamped 10 90 offeringInput (sampleSettings true true) []
      (by norm_num)).2 (by norm_num [inRange, sampleSettings])⟩

/-- C20: with `ShowSettings` false `DrawSettings` returns at once: every
setting is as it was, whatever the user does, and nothing is emitted, no
window and no control. -/
theorem hidden_panel_is_not_built (lo hi : ℚ) (io : ImGui.Input) (s : UserSettings)
    (frame : List ImGui.Item) (h : s.ShowSettings = false) :
    DrawSettings lo hi io s frame = (s, frame) := by
  simp [DrawSettings, h]

/-- With the panel hidden, a frame in which 500 samples per pixel are offered
leaves the settings alone and emits nothing. -/
theorem hidden_panel_is_not_built_witness :
    (sampleSettings false true).ShowSettings = false ∧
    DrawSettings 10 90 offeringInput (sampleSettings false true) []
      = (sampleSettings false true, []) :=
  ⟨rfl, hidden_panel_is_not_built 10 90 offeringInput (sampleSettings false true) [] rfl⟩

/-! ## Where capture state is displayed -/

/-- C19 at its failing input: the overlay and the panel are hidden, the
provider is available, nothing is pressed.  `Render` still opens one window,
"RenderDoc Professional Debugger", and it shows the recording indicator:
"RECORDING" while a capture is going on, "Ready for Capture" otherwise, so the
frame differs with the capture state. -/
theorem hidden_overlay_shows_capture_state :
    (sampleSettings false false).ShowOverlay = false ∧
    windows (Render 10 90 (idleInput 0) (sampleStatistics true true)
      (sampleSettings false false)).2 = ["🎯 RenderDoc Professional Debugger"] ∧
    ImGui.Item.Text "🔴 RECORDING" [] ∈
      (Render 10 90 (idleInput 0) (sampleStatistics true true) (sampleSettings false false)).2 ∧
    ImGui.Item.Text "✅ Ready for Capture" [] ∈
      (Render 10 90 (idleInput 0) (sampleStatistics true false) (sampleSettings false false)).2 ∧
    (Render 10 90 (idleInput 0) (sampleStatistics true true) (sampleSettings false false)).2
      ≠ (Render 10 90 (idleInput 0) (sampleStatistics true false)
          (sampleSettings false false)).2 ∧
    windows (Render 10 90 (idleInput 0) (sampleStatistics false false)
      (sampleSettings false false)).2 = [] := by
  decide

end UserInterface
